import Mathlib

/-!
# RIoT device-identity adapter (`dps_client/adapters/dps_hsm_riot.c`)

A shallow embedding of the adapter that derives the DeviceID and Alias key
pairs from the composite device identifier and assembles the alias, device
and root certificates, followed by theorems about it.

* Byte buffers are lists of natural numbers; a pointer that may be `NULL` is
  an `Option` (`Ptr`), with `none` for `NULL`.
* The RIoT crypto and DER/X.509 libraries and the allocator are external to
  the adapter.  They are gathered in a `Provider`: every primitive is a
  function from the values it is handed to the status it reports and the
  contents it leaves in the objects it writes.
* The three file-scope variables of the adapter are the fields of `Globals`,
  threaded through every operation.  `Globals.calls` is a ghost log: each
  invocation of a provider primitive, and the copy of the common name made
  by `process_riot_key_info`, is appended to it together with the status
  that was reported.
* A copy that would run past the end of an array has no defined result; the
  operations that copy with a length taken from the handle return an
  `Option` whose `none` stands for that undefined outcome.
-/

set_option linter.unusedVariables false

namespace DpsHsmRiot

/-- Raw bytes (`uint8_t[]`, `unsigned char[]`, `char[]`). -/
abbrev Bytes := List Nat

/-- A pointer that may be `NULL` (`none`). -/
abbrev Ptr (α : Type) := Option α

/-- Status reported by the RIoT crypto primitives. -/
abbrev RIOT_STATUS := Int

/-- The status with which a RIoT crypto primitive reports success. -/
def RIOT_SUCCESS : RIOT_STATUS := 0

abbrev RIOT_ECC_PUBLIC := Bytes
abbrev RIOT_ECC_PRIVATE := Bytes
abbrev RIOT_ECC_SIGNATURE := Bytes

/-- The shared-utility failure code `__FAILURE__`, defined outside these
sources as `__LINE__`: the number of the source line it is written on. -/
def __FAILURE__ (line : Nat) : Int := line

/-- An object all of whose `n` bytes are zero (`= { 0 }`, `memset (_, 0, n)`). -/
def zeroed (n : Nat) : Bytes := List.replicate n 0

/-- Number of characters before the terminator of a C string. -/
def strlen (s : String) : Nat := s.length

def RIOT_SIGNER_NAME : String := "riot-signer-core"
def RIOT_COMMON_NAME : String := "riot-device-cert"
def RIOT_CA_CERT_NAME : String := "riot-root"

/-- Modelled from the spec: the digest length of `RiotCrypt.h`, which is not
among the sources; the spec fixes the measurement and the root secret at 32
bytes, the number of initialisers of every array declared with this length. -/
def RIOT_DIGEST_LENGTH : Nat := 32

def DICE_DIGEST_LENGTH : Nat := RIOT_DIGEST_LENGTH

def DICE_UDS_LENGTH : Nat := 0x20

/-- The simulated RIoT Core measurement. -/
def RAMDOM_DIGEST : Bytes :=
  [0xb5, 0x85, 0x94, 0x93, 0x66, 0x1e, 0x2e, 0xae,
   0x96, 0x77, 0xc5, 0x5d, 0x59, 0x0b, 0x92, 0x94,
   0xe0, 0x94, 0xab, 0xaf, 0xd7, 0x40, 0x78, 0x7e,
   0x05, 0x0d, 0xfe, 0x6d, 0x85, 0x90, 0x53, 0xa0]

/-- The static fields of a "to be signed" region, in the order of the
initialisers.  Only the subject common name is ever tested against `NULL`. -/
structure RIOT_X509_TBS_DATA where
  SerialNum : Bytes
  IssuerCommon : String
  IssuerOrg : String
  IssuerCountry : String
  ValidFrom : String
  ValidTo : String
  SubjectCommon : Ptr String
  SubjectOrg : String
  SubjectCountry : String
  deriving DecidableEq, Repr

def X509_ALIAS_TBS_DATA : RIOT_X509_TBS_DATA :=
  { SerialNum := [0x0A, 0x0B, 0x0C, 0x0D, 0x0E], IssuerCommon := RIOT_SIGNER_NAME,
    IssuerOrg := "MSR_TEST", IssuerCountry := "US",
    ValidFrom := "170101000000Z", ValidTo := "370101000000Z",
    SubjectCommon := some RIOT_COMMON_NAME, SubjectOrg := "MSR_TEST", SubjectCountry := "US" }

def X509_DEVICE_TBS_DATA : RIOT_X509_TBS_DATA :=
  { SerialNum := [0x0E, 0x0D, 0x0C, 0x0B, 0x0A], IssuerCommon := RIOT_CA_CERT_NAME,
    IssuerOrg := "MSR_TEST", IssuerCountry := "US",
    ValidFrom := "170101000000Z", ValidTo := "370101000000Z",
    SubjectCommon := some RIOT_SIGNER_NAME, SubjectOrg := "MSR_TEST", SubjectCountry := "US" }

def X509_ROOT_TBS_DATA : RIOT_X509_TBS_DATA :=
  { SerialNum := [0x1A, 0x2B, 0x3C, 0x4D, 0x5E], IssuerCommon := RIOT_CA_CERT_NAME,
    IssuerOrg := "MSR_TEST", IssuerCountry := "US",
    ValidFrom := "170101000000Z", ValidTo := "370101000000Z",
    SubjectCommon := some RIOT_CA_CERT_NAME, SubjectOrg := "MSR_TEST", SubjectCountry := "US" }

/-- The unique device secret from which the composite identifier is derived. -/
def g_uds_seed : Bytes :=
  [0x54, 0x10, 0x5D, 0x2E, 0xCD, 0x07, 0xF9, 0x01,
   0x99, 0xB3, 0x95, 0xC7, 0x42, 0x61, 0xA0, 0x8C,
   0xFF, 0x27, 0x1A, 0x0D, 0xF6, 0x6F, 0x1F, 0xE0,
   0x00, 0x34, 0xBB, 0x11, 0xF7, 0x98, 0x9A, 0x12]

/-- The value `g_CDI` holds when the program starts. -/
def g_CDI_initializer : Bytes :=
  [0x91, 0x75, 0xDB, 0xEE, 0x90, 0xC4, 0xE1, 0xE3,
   0x74, 0x47, 0x2C, 0x8A, 0x55, 0x3F, 0xD2, 0xB8,
   0xE9, 0x79, 0xEE, 0xF1, 0x62, 0xF8, 0x64, 0xDA,
   0x50, 0x69, 0x4B, 0x3E, 0x5A, 0x1E, 0x3A, 0x6E]

/-- The public half of the development-only "root" signing key. -/
def eccRootPubBytes : Bytes :=
  [0xeb, 0x9c, 0xfc, 0xc8, 0x49, 0x94, 0xd3, 0x50, 0xa7, 0x1f, 0x9d, 0xc5,
   0x09, 0x3d, 0xd2, 0xfe, 0xb9, 0x48, 0x97, 0xf4, 0x95, 0xa5, 0x5d, 0xec,
   0xc9, 0x0f, 0x52, 0xa1, 0x26, 0x5a, 0xab, 0x69, 0x00, 0x00, 0x00, 0x00,
   0x7d, 0xce, 0xb1, 0x62, 0x39, 0xf8, 0x3c, 0xd5, 0x9a, 0xad, 0x9e, 0x05,
   0xb1, 0x4f, 0x70, 0xa2, 0xfa, 0xd4, 0xfb, 0x04, 0xe5, 0x37, 0xd2, 0x63,
   0x9a, 0x46, 0x9e, 0xfd, 0xb0, 0x5b, 0x1e, 0xdf, 0x00, 0x00, 0x00, 0x00,
   0x00, 0x00, 0x00, 0x00]

/-- The private half of the development-only "root" signing key. -/
def eccRootPrivBytes : Bytes :=
  [0xe3, 0xe7, 0xc7, 0x13, 0x57, 0x3f, 0xd9, 0xc8, 0xb8, 0xe1, 0xea, 0xf4,
   0x53, 0xf1, 0x56, 0x15, 0x02, 0xf0, 0x71, 0xc0, 0x53, 0x49, 0xc8, 0xda,
   0xe6, 0x26, 0xa9, 0x0b, 0x17, 0x88, 0xe5, 0x70, 0x00, 0x00, 0x00, 0x00]

/-- The size of `ecc_publickey`: both root-key arrays are declared with the
size of their key type and initialised in full. -/
def sizeof_ecc_publickey : Nat := eccRootPubBytes.length

/-- The size of `ecc_privatekey`. -/
def sizeof_ecc_privatekey : Nat := eccRootPrivBytes.length

inductive CERTIFICATE_SIGNING_TYPE
  | type_self_sign
  | type_riot_csr
  | type_root_signed
  deriving DecidableEq, Repr

/-- The DER builder context.  The adapter reads `Buffer` and `Position`; the
remaining bookkeeping of the encoder is carried in `Nesting`. -/
structure DERBuilderContext where
  Buffer : Bytes
  Length : Nat
  Position : Nat
  Nesting : List Nat
  deriving DecidableEq, Repr

/-- The local `DERBuilderContext der_ctx = { 0 }`. -/
def DERBuilderContext.zero : DERBuilderContext :=
  { Buffer := [], Length := 0, Position := 0, Nesting := [] }

/-- The handle record. -/
structure DPS_SECURE_DEVICE_INFO where
  device_id_pub : RIOT_ECC_PUBLIC
  device_id_priv : RIOT_ECC_PRIVATE
  alias_key_pub : RIOT_ECC_PUBLIC
  alias_key_priv : RIOT_ECC_PRIVATE
  ca_root_pub : RIOT_ECC_PUBLIC
  ca_root_priv : RIOT_ECC_PRIVATE
  certificate_common_name : Ptr String
  device_id_length : Nat
  device_id_public_pem : Bytes
  device_signed_length : Nat
  device_signed_pem : Bytes
  alias_key_length : Nat
  alias_priv_key_pem : Bytes
  alias_cert_length : Nat
  alias_cert_pem : Bytes
  root_ca_length : Nat
  root_ca_pem : Bytes
  root_ca_priv_length : Nat
  root_ca_priv_pem : Bytes
  deriving DecidableEq, Repr

/-- The external libraries the adapter is linked against, with the constants
of their headers.  A status-returning primitive yields its status together
with the contents it leaves in what it writes, on success and on failure; a
`DERBuilderContext` is read and written, and `DERtoPEM` is handed the text
buffer and the capacity stored in its length argument.  Every primitive is a
function of what it is handed: it may fail on any input, but it keeps no
state between calls, and the allocator decides by the size requested.  The
signature buffer is read after a signing that did not succeed in one place,
the request mode of `produce_device_cert`; what it holds then may depend on
what it held before the call, and is given by `RiotCrypt_Sign_leaves`. -/
structure Provider where
  DER_MAX_PEM : Nat
  DER_MAX_TBS : Nat
  RIOT_LABEL_IDENTITY : Bytes
  RIOT_LABEL_ALIAS : Bytes
  CERT_TYPE : Nat
  PUBLICKEY_TYPE : Nat
  ECC_PRIVATEKEY_TYPE : Nat
  sizeof_DPS_SECURE_DEVICE_INFO : Nat
  sizeof_RIOT_ECC_SIGNATURE : Nat
  /-- Whether `malloc` of the given size returns a block. -/
  malloc_succeeds : Nat → Bool
  /-- The byte found in freshly allocated, not yet written memory. -/
  heap_fill : Nat
  DiceSHA256 : Bytes → Nat → Bytes
  DiceSHA256_2 : Bytes → Nat → Bytes → Nat → Bytes
  RiotCrypt_Hash : Nat → Bytes → Nat → RIOT_STATUS × Bytes
  RiotCrypt_Hash2 : Nat → Bytes → Nat → Bytes → Nat → RIOT_STATUS × Bytes
  RiotCrypt_DeriveEccKey :
    Bytes → Nat → Bytes → Nat → RIOT_STATUS × RIOT_ECC_PUBLIC × RIOT_ECC_PRIVATE
  RiotCrypt_Sign : Bytes → Nat → RIOT_ECC_PRIVATE → RIOT_STATUS × RIOT_ECC_SIGNATURE
  /-- What a `RiotCrypt_Sign` that does not report success leaves in the
  signature buffer it was handed, given what the buffer held. -/
  RiotCrypt_Sign_leaves :
    RIOT_ECC_SIGNATURE → Bytes → Nat → RIOT_ECC_PRIVATE → RIOT_ECC_SIGNATURE
  DERInitContext : DERBuilderContext → Bytes → Nat → DERBuilderContext
  X509GetDEREccPub : DERBuilderContext → RIOT_ECC_PUBLIC → Int × DERBuilderContext
  X509GetDEREcc :
    DERBuilderContext → RIOT_ECC_PUBLIC → RIOT_ECC_PRIVATE → Int × DERBuilderContext
  X509GetDeviceCertTBS :
    DERBuilderContext → RIOT_X509_TBS_DATA → RIOT_ECC_PUBLIC → Int × DERBuilderContext
  X509GetAliasCertTBS :
    DERBuilderContext → RIOT_X509_TBS_DATA → RIOT_ECC_PUBLIC → RIOT_ECC_PUBLIC → Bytes → Nat →
      Int × DERBuilderContext
  X509GetDERCsrTbs :
    DERBuilderContext → RIOT_X509_TBS_DATA → RIOT_ECC_PUBLIC → Int × DERBuilderContext
  X509MakeAliasCert : DERBuilderContext → RIOT_ECC_SIGNATURE → Int × DERBuilderContext
  X509MakeDeviceCert : DERBuilderContext → RIOT_ECC_SIGNATURE → Int × DERBuilderContext
  X509MakeRootCert : DERBuilderContext → RIOT_ECC_SIGNATURE → Int × DERBuilderContext
  X509GetDERCsr : DERBuilderContext → RIOT_ECC_SIGNATURE → Int × DERBuilderContext
  DERtoPEM : DERBuilderContext → Nat → Bytes → Nat → Int × Bytes × Nat

/-- The length of a label without its terminator (`lblSize`). -/
def lblSize (label : Bytes) : Nat := label.length

/-- A provider primitive together with the values it was handed. -/
inductive Call
  | DiceSHA256 (buf : Bytes) (bufSize : Nat)
  | DiceSHA256_2 (buf1 : Bytes) (bufSize1 : Nat) (buf2 : Bytes) (bufSize2 : Nat)
  | RiotCrypt_Hash (resultSize : Nat) (data : Bytes) (dataSize : Nat)
  | RiotCrypt_Hash2 (resultSize : Nat) (data1 : Bytes) (data1Size : Nat)
      (data2 : Bytes) (data2Size : Nat)
  | RiotCrypt_DeriveEccKey (src : Bytes) (srcSize : Nat) (label : Bytes) (labelSize : Nat)
  | RiotCrypt_Sign (data : Bytes) (dataSize : Nat) (key : RIOT_ECC_PRIVATE)
  | DERInitContext (ctx : DERBuilderContext) (buffer : Bytes) (length : Nat)
  | X509GetDEREccPub (ctx : DERBuilderContext) (pub : RIOT_ECC_PUBLIC)
  | X509GetDEREcc (ctx : DERBuilderContext) (pub : RIOT_ECC_PUBLIC) (priv : RIOT_ECC_PRIVATE)
  | X509GetDeviceCertTBS (ctx : DERBuilderContext) (tbs : RIOT_X509_TBS_DATA)
      (pub : RIOT_ECC_PUBLIC)
  | X509GetAliasCertTBS (ctx : DERBuilderContext) (tbs : RIOT_X509_TBS_DATA)
      (aliasPub : RIOT_ECC_PUBLIC) (devIdPub : RIOT_ECC_PUBLIC) (fwid : Bytes) (fwidLen : Nat)
  | X509GetDERCsrTbs (ctx : DERBuilderContext) (tbs : RIOT_X509_TBS_DATA)
      (pub : RIOT_ECC_PUBLIC)
  | X509MakeAliasCert (ctx : DERBuilderContext) (sig : RIOT_ECC_SIGNATURE)
  | X509MakeDeviceCert (ctx : DERBuilderContext) (sig : RIOT_ECC_SIGNATURE)
  | X509MakeRootCert (ctx : DERBuilderContext) (sig : RIOT_ECC_SIGNATURE)
  | X509GetDERCsr (ctx : DERBuilderContext) (sig : RIOT_ECC_SIGNATURE)
  | DERtoPEM (ctx : DERBuilderContext) (type : Nat) (pem : Bytes) (length : Nat)
  | mallocAndStrcpy_s (source : Ptr String)
  deriving DecidableEq, Repr

/-- One entry of the ghost log: the call and the status it reported (`0` for
a primitive that returns nothing). -/
structure Invocation where
  call : Call
  status : Int
  deriving DecidableEq, Repr

/-- The file-scope state of the adapter, and the ghost log of provider calls. -/
structure Globals where
  g_digest_initialized : Int
  g_digest : Bytes
  g_CDI : Bytes
  calls : List Invocation
  deriving DecidableEq, Repr

/-- The state in which the program starts. -/
def Globals.initial : Globals :=
  { g_digest_initialized := 0, g_digest := zeroed DICE_DIGEST_LENGTH,
    g_CDI := g_CDI_initializer, calls := [] }

/-- Append one provider invocation to the ghost log. -/
def Globals.record (g : Globals) (c : Call) (status : Int) : Globals :=
  { g with calls := g.calls ++ [{ call := c, status := status }] }

/-- Allocation: a block of `n` bytes of unspecified contents, or `NULL`. -/
def malloc (P : Provider) (n : Nat) : Ptr Bytes :=
  if P.malloc_succeeds n then some (List.replicate n P.heap_fill) else none

/-- Fill the first `n` bytes of `dst` with `c`; undefined past the end of `dst`. -/
def memset (dst : Bytes) (c : Nat) (n : Nat) : Option Bytes :=
  if n ≤ dst.length then some (List.replicate n c ++ dst.drop n) else none

/-- Copy the first `n` bytes of `src` over the first `n` bytes of `dst`;
undefined when either object is shorter than `n`. -/
def memcpy (dst src : Bytes) (n : Nat) : Option Bytes :=
  if n ≤ dst.length ∧ n ≤ src.length then some (src.take n ++ dst.drop n) else none

def EINVAL : Int := 22
def ENOMEM : Int := 12

/-- Modelled from the spec: the shared-utility string duplication, defined
outside these sources.  It hands back a freshly allocated copy of `source`
and `0`; with no source, or when the allocation fails, it reports an error
and leaves the destination as it was. -/
def mallocAndStrcpy_s (P : Provider) (destination : Ptr String) (source : Ptr String) :
    Int × Ptr String :=
  match source with
  | none => (EINVAL, destination)
  | some s => if P.malloc_succeeds (strlen s + 1) then (0, some s) else (ENOMEM, destination)

/-- The handle record after `memset (result, 0, sizeof (DPS_SECURE_DEVICE_INFO))`. -/
def DPS_SECURE_DEVICE_INFO.zero (P : Provider) : DPS_SECURE_DEVICE_INFO :=
  { device_id_pub := zeroed sizeof_ecc_publickey
    device_id_priv := zeroed sizeof_ecc_privatekey
    alias_key_pub := zeroed sizeof_ecc_publickey
    alias_key_priv := zeroed sizeof_ecc_privatekey
    ca_root_pub := zeroed sizeof_ecc_publickey
    ca_root_priv := zeroed sizeof_ecc_privatekey
    certificate_common_name := none
    device_id_length := 0
    device_id_public_pem := zeroed P.DER_MAX_PEM
    device_signed_length := 0
    device_signed_pem := zeroed P.DER_MAX_PEM
    alias_key_length := 0
    alias_priv_key_pem := zeroed P.DER_MAX_PEM
    alias_cert_length := 0
    alias_cert_pem := zeroed P.DER_MAX_PEM
    root_ca_length := 0
    root_ca_pem := zeroed P.DER_MAX_PEM
    root_ca_priv_length := 0
    root_ca_priv_pem := zeroed P.DER_MAX_PEM }

def produce_priv_key (P : Provider) (riot_info : DPS_SECURE_DEVICE_INFO) (g : Globals) :
    Int × DPS_SECURE_DEVICE_INFO × Globals :=
  let der_buffer := zeroed P.DER_MAX_TBS
  let riot_info := { riot_info with ca_root_pub := eccRootPubBytes.take sizeof_ecc_publickey }
  let riot_info := { riot_info with ca_root_priv := eccRootPrivBytes.take sizeof_ecc_privatekey }
  let der_ctx := P.DERInitContext DERBuilderContext.zero der_buffer P.DER_MAX_TBS
  let g := g.record (.DERInitContext DERBuilderContext.zero der_buffer P.DER_MAX_TBS) 0
  let r := P.X509GetDEREcc der_ctx riot_info.ca_root_pub riot_info.ca_root_priv
  let g := g.record (.X509GetDEREcc der_ctx riot_info.ca_root_pub riot_info.ca_root_priv) r.1
  if r.1 ≠ 0 then
    (__FAILURE__ 183, riot_info, g)
  else
    let der_ctx := r.2
    let riot_info := { riot_info with root_ca_priv_length := P.DER_MAX_PEM }
    let e := P.DERtoPEM der_ctx P.ECC_PRIVATEKEY_TYPE riot_info.root_ca_priv_pem
      riot_info.root_ca_priv_length
    let g := g.record (.DERtoPEM der_ctx P.ECC_PRIVATEKEY_TYPE riot_info.root_ca_priv_pem
      riot_info.root_ca_priv_length) e.1
    let riot_info := { riot_info with root_ca_priv_pem := e.2.1, root_ca_priv_length := e.2.2 }
    if e.1 ≠ 0 then
      (__FAILURE__ 191, riot_info, g)
    else
      (0, riot_info, g)

def produce_root_ca (P : Provider) (riot_info : DPS_SECURE_DEVICE_INFO)
    (tbs_sig : RIOT_ECC_SIGNATURE) (g : Globals) : Int × DPS_SECURE_DEVICE_INFO × Globals :=
  let der_buffer := zeroed P.DER_MAX_TBS
  let der_ctx := P.DERInitContext DERBuilderContext.zero der_buffer P.DER_MAX_TBS
  let g := g.record (.DERInitContext DERBuilderContext.zero der_buffer P.DER_MAX_TBS) 0
  let t := P.X509GetDeviceCertTBS der_ctx X509_ROOT_TBS_DATA eccRootPubBytes
  let g := g.record (.X509GetDeviceCertTBS der_ctx X509_ROOT_TBS_DATA eccRootPubBytes) t.1
  let der_ctx := t.2
  if t.1 ≠ 0 then
    (__FAILURE__ 213, riot_info, g)
  else
    let s := P.RiotCrypt_Sign der_ctx.Buffer der_ctx.Position riot_info.device_id_priv
    let g := g.record (.RiotCrypt_Sign der_ctx.Buffer der_ctx.Position riot_info.device_id_priv) s.1
    let tbs_sig := s.2
    if s.1 ≠ RIOT_SUCCESS then
      (__FAILURE__ 219, riot_info, g)
    else
      let m := P.X509MakeRootCert der_ctx tbs_sig
      let g := g.record (.X509MakeRootCert der_ctx tbs_sig) m.1
      let der_ctx := m.2
      if m.1 ≠ 0 then
        (__FAILURE__ 224, riot_info, g)
      else
        let riot_info := { riot_info with root_ca_length := P.DER_MAX_PEM }
        let e := P.DERtoPEM der_ctx P.CERT_TYPE riot_info.root_ca_pem riot_info.root_ca_length
        let g := g.record (.DERtoPEM der_ctx P.CERT_TYPE riot_info.root_ca_pem
          riot_info.root_ca_length) e.1
        let riot_info := { riot_info with root_ca_pem := e.2.1, root_ca_length := e.2.2 }
        if e.1 ≠ 0 then
          (__FAILURE__ 232, riot_info, g)
        else
          (0, riot_info, g)

def produce_device_cert (P : Provider) (riot_info : DPS_SECURE_DEVICE_INFO)
    (tbs_sig : RIOT_ECC_SIGNATURE) (signing_type : CERTIFICATE_SIGNING_TYPE) (g : Globals) :
    Int × DPS_SECURE_DEVICE_INFO × Globals :=
  let der_buffer := zeroed P.DER_MAX_TBS
  -- the three signing modes: the status, the context and the log they leave
  let built : Int × DERBuilderContext × Globals :=
    if signing_type = .type_self_sign then
      let der_ctx := P.DERInitContext DERBuilderContext.zero der_buffer P.DER_MAX_TBS
      let g := g.record (.DERInitContext DERBuilderContext.zero der_buffer P.DER_MAX_TBS) 0
      let t := P.X509GetDeviceCertTBS der_ctx X509_DEVICE_TBS_DATA riot_info.device_id_pub
      let g := g.record (.X509GetDeviceCertTBS der_ctx X509_DEVICE_TBS_DATA
        riot_info.device_id_pub) t.1
      let der_ctx := t.2
      if t.1 ≠ 0 then
        (__FAILURE__ 256, der_ctx, g)
      else
        let s := P.RiotCrypt_Sign der_ctx.Buffer der_ctx.Position riot_info.device_id_priv
        let g := g.record (.RiotCrypt_Sign der_ctx.Buffer der_ctx.Position
          riot_info.device_id_priv) s.1
        let tbs_sig := s.2
        if s.1 ≠ RIOT_SUCCESS then
          (__FAILURE__ 262, der_ctx, g)
        else
          let m := P.X509MakeDeviceCert der_ctx tbs_sig
          let g := g.record (.X509MakeDeviceCert der_ctx tbs_sig) m.1
          if m.1 ≠ 0 then (__FAILURE__ 267, m.2, g) else (0, m.2, g)
    else if signing_type = .type_riot_csr then
      let der_ctx := P.DERInitContext DERBuilderContext.zero der_buffer P.DER_MAX_TBS
      let g := g.record (.DERInitContext DERBuilderContext.zero der_buffer P.DER_MAX_TBS) 0
      let t := P.X509GetDERCsrTbs der_ctx X509_ALIAS_TBS_DATA riot_info.device_id_pub
      let g := g.record (.X509GetDERCsrTbs der_ctx X509_ALIAS_TBS_DATA
        riot_info.device_id_pub) t.1
      let der_ctx := t.2
      if t.1 ≠ 0 then
        (__FAILURE__ 280, der_ctx, g)
      else
        let s := P.RiotCrypt_Sign der_ctx.Buffer der_ctx.Position riot_info.device_id_priv
        let g := g.record (.RiotCrypt_Sign der_ctx.Buffer der_ctx.Position
          riot_info.device_id_priv) s.1
        let tbs_sig :=
          if s.1 = RIOT_SUCCESS then s.2
          else P.RiotCrypt_Sign_leaves tbs_sig der_ctx.Buffer der_ctx.Position
            riot_info.device_id_priv
        if s.1 = RIOT_SUCCESS then
          (__FAILURE__ 286, der_ctx, g)
        else
          let m := P.X509GetDERCsr der_ctx tbs_sig
          let g := g.record (.X509GetDERCsr der_ctx tbs_sig) m.1
          if m.1 ≠ 0 then (__FAILURE__ 292, m.2, g) else (0, m.2, g)
    else
      let der_ctx := P.DERInitContext DERBuilderContext.zero der_buffer P.DER_MAX_TBS
      let g := g.record (.DERInitContext DERBuilderContext.zero der_buffer P.DER_MAX_TBS) 0
      let t := P.X509GetDeviceCertTBS der_ctx X509_DEVICE_TBS_DATA riot_info.device_id_pub
      let g := g.record (.X509GetDeviceCertTBS der_ctx X509_DEVICE_TBS_DATA
        riot_info.device_id_pub) t.1
      let der_ctx := t.2
      if t.1 ≠ 0 then
        (__FAILURE__ 306, der_ctx, g)
      else
        let s := P.RiotCrypt_Sign der_ctx.Buffer der_ctx.Position eccRootPrivBytes
        let g := g.record (.RiotCrypt_Sign der_ctx.Buffer der_ctx.Position eccRootPrivBytes) s.1
        let tbs_sig := s.2
        if s.1 ≠ RIOT_SUCCESS then
          (__FAILURE__ 312, der_ctx, g)
        else
          let m := P.X509MakeDeviceCert der_ctx tbs_sig
          let g := g.record (.X509MakeDeviceCert der_ctx tbs_sig) m.1
          if m.1 ≠ 0 then (__FAILURE__ 317, m.2, g) else (0, m.2, g)
  let result := built.1
  let der_ctx := built.2.1
  let g := built.2.2
  if result = 0 then
    let riot_info := { riot_info with device_signed_length := P.DER_MAX_PEM }
    let e := P.DERtoPEM der_ctx P.CERT_TYPE riot_info.device_signed_pem
      riot_info.device_signed_length
    let g := g.record (.DERtoPEM der_ctx P.CERT_TYPE riot_info.device_signed_pem
      riot_info.device_signed_length) e.1
    let riot_info := { riot_info with device_signed_pem := e.2.1, device_signed_length := e.2.2 }
    if e.1 ≠ 0 then
      (__FAILURE__ 331, riot_info, g)
    else
      (0, riot_info, g)
  else
    (result, riot_info, g)

def produce_alias_key_cert (P : Provider) (riot_info : DPS_SECURE_DEVICE_INFO)
    (cert_ctx : DERBuilderContext) (g : Globals) : Int × DPS_SECURE_DEVICE_INFO × Globals :=
  let riot_info := { riot_info with alias_cert_length := P.DER_MAX_PEM }
  let e := P.DERtoPEM cert_ctx P.CERT_TYPE riot_info.alias_cert_pem riot_info.alias_cert_length
  let g := g.record (.DERtoPEM cert_ctx P.CERT_TYPE riot_info.alias_cert_pem
    riot_info.alias_cert_length) e.1
  let riot_info := { riot_info with alias_cert_pem := e.2.1, alias_cert_length := e.2.2 }
  if e.1 ≠ 0 then
    (__FAILURE__ 348, riot_info, g)
  else
    (0, riot_info, g)

def produce_alias_key_pair (P : Provider) (riot_info : DPS_SECURE_DEVICE_INFO) (g : Globals) :
    Int × DPS_SECURE_DEVICE_INFO × Globals :=
  let der_buffer := zeroed P.DER_MAX_TBS
  let der_ctx := P.DERInitContext DERBuilderContext.zero der_buffer P.DER_MAX_TBS
  let g := g.record (.DERInitContext DERBuilderContext.zero der_buffer P.DER_MAX_TBS) 0
  let r := P.X509GetDEREcc der_ctx riot_info.alias_key_pub riot_info.alias_key_priv
  let g := g.record (.X509GetDEREcc der_ctx riot_info.alias_key_pub riot_info.alias_key_priv) r.1
  if r.1 ≠ 0 then
    (__FAILURE__ 367, riot_info, g)
  else
    let der_ctx := r.2
    let riot_info := { riot_info with alias_key_length := P.DER_MAX_PEM }
    let e := P.DERtoPEM der_ctx P.ECC_PRIVATEKEY_TYPE riot_info.alias_priv_key_pem
      riot_info.alias_key_length
    let g := g.record (.DERtoPEM der_ctx P.ECC_PRIVATEKEY_TYPE riot_info.alias_priv_key_pem
      riot_info.alias_key_length) e.1
    let riot_info := { riot_info with alias_priv_key_pem := e.2.1, alias_key_length := e.2.2 }
    if e.1 ≠ 0 then
      (__FAILURE__ 375, riot_info, g)
    else
      (0, riot_info, g)

def produce_device_id_public (P : Provider) (riot_info : DPS_SECURE_DEVICE_INFO) (g : Globals) :
    Int × DPS_SECURE_DEVICE_INFO × Globals :=
  let der_buffer := zeroed P.DER_MAX_TBS
  let der_ctx := P.DERInitContext DERBuilderContext.zero der_buffer P.DER_MAX_TBS
  let g := g.record (.DERInitContext DERBuilderContext.zero der_buffer P.DER_MAX_TBS) 0
  let r := P.X509GetDEREccPub der_ctx riot_info.device_id_pub
  let g := g.record (.X509GetDEREccPub der_ctx riot_info.device_id_pub) r.1
  if r.1 ≠ 0 then
    (__FAILURE__ 396, riot_info, g)
  else
    let der_ctx := r.2
    let riot_info := { riot_info with device_id_length := P.DER_MAX_PEM }
    let e := P.DERtoPEM der_ctx P.PUBLICKEY_TYPE riot_info.device_id_public_pem
      riot_info.device_id_length
    let g := g.record (.DERtoPEM der_ctx P.PUBLICKEY_TYPE riot_info.device_id_public_pem
      riot_info.device_id_length) e.1
    let riot_info := { riot_info with device_id_public_pem := e.2.1, device_id_length := e.2.2 }
    if e.1 ≠ 0 then
      (__FAILURE__ 404, riot_info, g)
    else
      (0, riot_info, g)

/-- The firmware identity that `process_riot_key_info` mixes into the alias key. -/
def firmware_id : Bytes :=
  [0x6B, 0xE9, 0xB1, 0x84, 0xC9, 0x37, 0xC2, 0x8E,
   0x12, 0x2E, 0xEE, 0x51, 0x2B, 0x68, 0xEA, 0x8E,
   0x00, 0xC3, 0xDD, 0x15, 0x9E, 0xA4, 0xE8, 0x5E,
   0x84, 0xCB, 0xA9, 0x66, 0xF4, 0x46, 0xCD, 0x4E]

/-- The test `SubjectCommon == NULL || strlen (SubjectCommon) == 0`. -/
def null_or_empty (s : Ptr String) : Bool :=
  match s with
  | none => true
  | some str => strlen str == 0

def process_riot_key_info (P : Provider) (riot_info : DPS_SECURE_DEVICE_INFO) (g : Globals) :
    Int × DPS_SECURE_DEVICE_INFO × Globals :=
  if g.g_digest_initialized = 0 then
    (__FAILURE__ 430, riot_info, g)
  else if null_or_empty X509_ALIAS_TBS_DATA.SubjectCommon then
    (__FAILURE__ 435, riot_info, g)
  else
    let h := P.RiotCrypt_Hash RIOT_DIGEST_LENGTH g.g_CDI DICE_DIGEST_LENGTH
    let g := g.record (.RiotCrypt_Hash RIOT_DIGEST_LENGTH g.g_CDI DICE_DIGEST_LENGTH) h.1
    let g := { g with g_digest := h.2 }
    if h.1 ≠ RIOT_SUCCESS then
      (__FAILURE__ 440, riot_info, g)
    else
      let k := P.RiotCrypt_DeriveEccKey g.g_digest DICE_DIGEST_LENGTH
        P.RIOT_LABEL_IDENTITY (lblSize P.RIOT_LABEL_IDENTITY)
      let g := g.record (.RiotCrypt_DeriveEccKey g.g_digest DICE_DIGEST_LENGTH
        P.RIOT_LABEL_IDENTITY (lblSize P.RIOT_LABEL_IDENTITY)) k.1
      let riot_info := { riot_info with device_id_pub := k.2.1, device_id_priv := k.2.2 }
      if k.1 ≠ RIOT_SUCCESS then
        (__FAILURE__ 446, riot_info, g)
      else
        let h2 := P.RiotCrypt_Hash2 DICE_DIGEST_LENGTH g.g_digest DICE_DIGEST_LENGTH
          firmware_id RIOT_DIGEST_LENGTH
        let g := g.record (.RiotCrypt_Hash2 DICE_DIGEST_LENGTH g.g_digest DICE_DIGEST_LENGTH
          firmware_id RIOT_DIGEST_LENGTH) h2.1
        let g := { g with g_digest := h2.2 }
        if h2.1 ≠ RIOT_SUCCESS then
          (__FAILURE__ 452, riot_info, g)
        else
          let a := P.RiotCrypt_DeriveEccKey g.g_digest RIOT_DIGEST_LENGTH
            P.RIOT_LABEL_ALIAS (lblSize P.RIOT_LABEL_ALIAS)
          let g := g.record (.RiotCrypt_DeriveEccKey g.g_digest RIOT_DIGEST_LENGTH
            P.RIOT_LABEL_ALIAS (lblSize P.RIOT_LABEL_ALIAS)) a.1
          let riot_info := { riot_info with alias_key_pub := a.2.1, alias_key_priv := a.2.2 }
          if a.1 ≠ RIOT_SUCCESS then
            (__FAILURE__ 459, riot_info, g)
          else
            let p1 := produce_device_id_public P riot_info g
            if p1.1 ≠ 0 then
              (__FAILURE__ 467, p1.2.1, p1.2.2)
            else
              let p2 := produce_alias_key_pair P p1.2.1 p1.2.2
              if p2.1 ≠ 0 then
                (__FAILURE__ 473, p2.2.1, p2.2.2)
              else
                let riot_info := p2.2.1
                let g := p2.2.2
                let cert_buffer := zeroed P.DER_MAX_TBS
                let tbs_sig : RIOT_ECC_SIGNATURE := zeroed P.sizeof_RIOT_ECC_SIGNATURE
                let cert_ctx := P.DERInitContext DERBuilderContext.zero cert_buffer P.DER_MAX_TBS
                let g := g.record
                  (.DERInitContext DERBuilderContext.zero cert_buffer P.DER_MAX_TBS) 0
                let t := P.X509GetAliasCertTBS cert_ctx X509_ALIAS_TBS_DATA
                  riot_info.alias_key_pub riot_info.device_id_pub firmware_id RIOT_DIGEST_LENGTH
                let g := g.record (.X509GetAliasCertTBS cert_ctx X509_ALIAS_TBS_DATA
                  riot_info.alias_key_pub riot_info.device_id_pub firmware_id RIOT_DIGEST_LENGTH)
                  t.1
                let cert_ctx := t.2
                if t.1 ≠ 0 then
                  (__FAILURE__ 488, riot_info, g)
                else
                  let s := P.RiotCrypt_Sign cert_ctx.Buffer cert_ctx.Position
                    riot_info.device_id_priv
                  let g := g.record (.RiotCrypt_Sign cert_ctx.Buffer cert_ctx.Position
                    riot_info.device_id_priv) s.1
                  let tbs_sig := s.2
                  if s.1 ≠ RIOT_SUCCESS then
                    (__FAILURE__ 493, riot_info, g)
                  else
                    let m := P.X509MakeAliasCert cert_ctx tbs_sig
                    let g := g.record (.X509MakeAliasCert cert_ctx tbs_sig) m.1
                    let cert_ctx := m.2
                    if m.1 ≠ 0 then
                      (__FAILURE__ 498, riot_info, g)
                    else
                      let p3 := produce_alias_key_cert P riot_info cert_ctx g
                      if p3.1 ≠ 0 then
                        (__FAILURE__ 503, p3.2.1, p3.2.2)
                      else
                        let p4 := produce_device_cert P p3.2.1 tbs_sig .type_root_signed p3.2.2
                        if p4.1 ≠ 0 then
                          (__FAILURE__ 508, p4.2.1, p4.2.2)
                        else
                          let p5 := produce_root_ca P p4.2.1 tbs_sig p4.2.2
                          if p5.1 ≠ 0 then
                            (__FAILURE__ 513, p5.2.1, p5.2.2)
                          else
                            let p6 := produce_priv_key P p5.2.1 p5.2.2
                            if p6.1 ≠ 0 then
                              (__FAILURE__ 518, p6.2.1, p6.2.2)
                            else
                              let riot_info := p6.2.1
                              let g := p6.2.2
                              let c := mallocAndStrcpy_s P riot_info.certificate_common_name
                                X509_ALIAS_TBS_DATA.SubjectCommon
                              let g := g.record
                                (.mallocAndStrcpy_s X509_ALIAS_TBS_DATA.SubjectCommon) c.1
                              let riot_info := { riot_info with certificate_common_name := c.2 }
                              if c.1 ≠ 0 then
                                (__FAILURE__ 523, riot_info, g)
                              else
                                (0, riot_info, g)

def initialize_riot_system (P : Provider) (g : Globals) : Int × Globals :=
  if g.g_digest_initialized = 0 then
    let d := P.DiceSHA256 g_uds_seed DICE_UDS_LENGTH
    let g := g.record (.DiceSHA256 g_uds_seed DICE_UDS_LENGTH) 0
    let g := { g with g_digest := d }
    let cdi := P.DiceSHA256_2 g.g_digest DICE_DIGEST_LENGTH RAMDOM_DIGEST DICE_DIGEST_LENGTH
    let g := g.record
      (.DiceSHA256_2 g.g_digest DICE_DIGEST_LENGTH RAMDOM_DIGEST DICE_DIGEST_LENGTH) 0
    let g := { g with g_CDI := cdi }
    let g := { g with g_digest_initialized := 1 }
    (0, g)
  else
    (0, g)

def deinitialize_riot_system (g : Globals) : Globals := g

/-- The handle returned (`none` for `NULL`) and the state left behind. -/
def dps_hsm_riot_create (P : Provider) (g : Globals) :
    Ptr DPS_SECURE_DEVICE_INFO × Globals :=
  if P.malloc_succeeds P.sizeof_DPS_SECURE_DEVICE_INFO then
    let result := DPS_SECURE_DEVICE_INFO.zero P
    let r := process_riot_key_info P result g
    if r.1 ≠ 0 then
      (none, r.2.2)
    else
      (some r.2.1, r.2.2)
  else
    (none, g)

/-- The buffer returned (`none` for `NULL`) and the record behind the handle
after the call; the outer `none` is the undefined outcome of a copy that
leaves its arrays. -/
def dps_hsm_riot_get_certificate (P : Provider) (handle : Ptr DPS_SECURE_DEVICE_INFO) :
    Option (Ptr Bytes × Ptr DPS_SECURE_DEVICE_INFO) :=
  match handle with
  | none => some (none, handle)
  | some h =>
    match malloc P ((h.alias_cert_length + 1) % 2 ^ 32) with
    | none => some (none, handle)
    | some result => do
      let result ← memset result 0 ((h.alias_cert_length + 1) % 2 ^ 32)
      let result ← memcpy result h.alias_cert_pem h.alias_cert_length
      pure (some result, handle)

def dps_hsm_riot_get_alias_key (P : Provider) (handle : Ptr DPS_SECURE_DEVICE_INFO) :
    Option (Ptr Bytes × Ptr DPS_SECURE_DEVICE_INFO) :=
  match handle with
  | none => some (none, handle)
  | some h =>
    match malloc P ((h.alias_key_length + 1) % 2 ^ 32) with
    | none => some (none, handle)
    | some result => do
      let result ← memset result 0 ((h.alias_key_length + 1) % 2 ^ 32)
      let result ← memcpy result h.alias_priv_key_pem h.alias_key_length
      pure (some result, handle)

def dps_hsm_riot_get_device_cert (P : Provider) (handle : Ptr DPS_SECURE_DEVICE_INFO) :
    Option (Ptr Bytes × Ptr DPS_SECURE_DEVICE_INFO) :=
  match handle with
  | none => some (none, handle)
  | some h =>
    match malloc P ((h.device_id_length + 1) % 2 ^ 32) with
    | none => some (none, handle)
    | some result => do
      let result ← memset result 0 ((h.device_id_length + 1) % 2 ^ 32)
      let result ← memcpy result h.device_id_public_pem h.device_id_length
      pure (some result, handle)

def dps_hsm_riot_get_signer_cert (P : Provider) (handle : Ptr DPS_SECURE_DEVICE_INFO) :
    Option (Ptr Bytes × Ptr DPS_SECURE_DEVICE_INFO) :=
  match handle with
  | none => some (none, handle)
  | some h =>
    match malloc P ((h.device_signed_length + 1) % 2 ^ 32) with
    | none => some (none, handle)
    | some result => do
      let result ← memset result 0 ((h.device_signed_length + 1) % 2 ^ 32)
      let result ← memcpy result h.device_signed_pem h.device_signed_length
      pure (some result, handle)

def dps_hsm_riot_get_root_cert (P : Provider) (handle : Ptr DPS_SECURE_DEVICE_INFO) :
    Option (Ptr Bytes × Ptr DPS_SECURE_DEVICE_INFO) :=
  match handle with
  | none => some (none, handle)
  | some h =>
    match malloc P ((h.root_ca_length + 1) % 2 ^ 32) with
    | none => some (none, handle)
    | some result => do
      let result ← memset result 0 ((h.root_ca_length + 1) % 2 ^ 32)
      let result ← memcpy result h.root_ca_pem h.root_ca_length
      pure (some result, handle)

def dps_hsm_riot_get_root_key (P : Provider) (handle : Ptr DPS_SECURE_DEVICE_INFO) :
    Option (Ptr Bytes × Ptr DPS_SECURE_DEVICE_INFO) :=
  match handle with
  | none => some (none, handle)
  | some h =>
    match malloc P ((h.root_ca_priv_length + 1) % 2 ^ 32) with
    | none => some (none, handle)
    | some result => do
      let result ← memset result 0 ((h.root_ca_priv_length + 1) % 2 ^ 32)
      let result ← memcpy result h.root_ca_priv_pem h.root_ca_priv_length
      pure (some result, handle)

/-- The string returned (`none` for `NULL`) and the record behind the handle
after the call. -/
def dps_hsm_riot_get_common_name (P : Provider) (handle : Ptr DPS_SECURE_DEVICE_INFO) :
    Ptr String × Ptr DPS_SECURE_DEVICE_INFO :=
  match handle with
  | none => (none, handle)
  | some h =>
    let c := mallocAndStrcpy_s P none h.certificate_common_name
    if c.1 ≠ 0 then
      (none, handle)
    else
      (c.2, handle)

/-- What the automatic variables of `dps_hsm_riot_create_leaf_cert` that are
declared without an initialiser hold when they are first read. -/
structure LeafLocals where
  leaf_id_pub : RIOT_ECC_PUBLIC
  leaf_id_priv : RIOT_ECC_PRIVATE
  leaf_len : Nat
  deriving DecidableEq, Repr

/-- The descriptor of the leaf request before the caller's name is stored in it. -/
def LEAF_CERT_TBS_DATA : RIOT_X509_TBS_DATA :=
  { SerialNum := [0x0E, 0x0D, 0x0C, 0x0B, 0x0A], IssuerCommon := "",
    IssuerOrg := "MSR_TEST", IssuerCountry := "US",
    ValidFrom := "170101000000Z", ValidTo := "370101000000Z",
    SubjectCommon := some RIOT_SIGNER_NAME, SubjectOrg := "MSR_TEST", SubjectCountry := "US" }

/-- The buffer returned (`none` for `NULL`), the record behind the handle after
the call, and the state left behind. -/
def dps_hsm_riot_create_leaf_cert (P : Provider) (locals : LeafLocals)
    (handle : Ptr DPS_SECURE_DEVICE_INFO) (common_name : Ptr String) (g : Globals) :
    Ptr Bytes × Ptr DPS_SECURE_DEVICE_INFO × Globals :=
  if handle = none ∨ common_name = none then
    (none, handle, g)
  else
    let der_buffer := zeroed P.DER_MAX_TBS
    let tbs_sig : RIOT_ECC_SIGNATURE := zeroed P.sizeof_RIOT_ECC_SIGNATURE
    let tbs_data := { LEAF_CERT_TBS_DATA with SubjectCommon := common_name }
    let der_ctx := P.DERInitContext DERBuilderContext.zero der_buffer P.DER_MAX_TBS
    let g := g.record (.DERInitContext DERBuilderContext.zero der_buffer P.DER_MAX_TBS) 0
    let t := P.X509GetDERCsrTbs der_ctx tbs_data locals.leaf_id_pub
    let g := g.record (.X509GetDERCsrTbs der_ctx tbs_data locals.leaf_id_pub) t.1
    let der_ctx := t.2
    if t.1 ≠ 0 then
      (none, handle, g)
    else
      let s := P.RiotCrypt_Sign der_ctx.Buffer der_ctx.Position locals.leaf_id_priv
      let g := g.record (.RiotCrypt_Sign der_ctx.Buffer der_ctx.Position locals.leaf_id_priv) s.1
      let tbs_sig := s.2
      if s.1 ≠ RIOT_SUCCESS then
        (none, handle, g)
      else
        let m := P.X509GetDERCsr der_ctx tbs_sig
        let g := g.record (.X509GetDERCsr der_ctx tbs_sig) m.1
        let der_ctx := m.2
        if m.1 ≠ 0 then
          (none, handle, g)
        else
          match malloc P (P.DER_MAX_PEM + 1) with
          | none => (none, handle, g)
          | some _ =>
            let result := zeroed (P.DER_MAX_PEM + 1)
            let e := P.DERtoPEM der_ctx P.CERT_TYPE result locals.leaf_len
            let g := g.record (.DERtoPEM der_ctx P.CERT_TYPE result locals.leaf_len) e.1
            if e.1 ≠ 0 then
              (none, handle, g)
            else
              (some e.2.1, handle, g)

/-! ## A small executable provider

Every primitive of `demoProvider` succeeds, except that its text encoder
refuses a record longer than the capacity it is given.  Keys, digests and
signatures are short check sums, so that the bytes of an encoded certificate
show which key bound it and which key signed it. -/

/-- Check sum of a byte string. -/
def cks (b : Bytes) : Nat := b.sum % 251

/-- Start a record in the builder buffer. -/
def demoWrite (ctx : DERBuilderContext) (b : Bytes) : DERBuilderContext :=
  { ctx with Buffer := b ++ ctx.Buffer.drop b.length, Position := b.length }

/-- Add bytes at the current position of the builder. -/
def demoAppend (ctx : DERBuilderContext) (b : Bytes) : DERBuilderContext :=
  { ctx with
    Buffer := ctx.Buffer.take ctx.Position ++ b ++ ctx.Buffer.drop (ctx.Position + b.length)
    Position := ctx.Position + b.length }

/-- Write `new` over the front of the array `old`, which keeps its size. -/
def demoOverlay (new old : Bytes) : Bytes := (new ++ old.drop new.length).take old.length

/-- Text encoding of the demo provider: the record is copied to the front of
the text buffer when it fits the capacity, and its size is reported. -/
def demoDERtoPEM (ctx : DERBuilderContext) (type : Nat) (pem : Bytes) (length : Nat) :
    Int × Bytes × Nat :=
  if ctx.Position ≤ length then
    (0, demoOverlay (ctx.Buffer.take ctx.Position) pem, ctx.Position)
  else
    (-1, pem, ctx.Position)

def demoProvider : Provider :=
  { DER_MAX_PEM := 8
    DER_MAX_TBS := 8
    RIOT_LABEL_IDENTITY := [73, 100, 101, 110, 116, 105, 116, 121]
    RIOT_LABEL_ALIAS := [65, 108, 105, 97, 115]
    CERT_TYPE := 0
    PUBLICKEY_TYPE := 1
    ECC_PRIVATEKEY_TYPE := 2
    sizeof_DPS_SECURE_DEVICE_INFO := 400
    sizeof_RIOT_ECC_SIGNATURE := 4
    malloc_succeeds := fun _ => true
    heap_fill := 0xCD
    DiceSHA256 := fun buf n => List.replicate 32 (cks (buf.take n))
    DiceSHA256_2 := fun b1 n1 b2 n2 => List.replicate 32 ((cks (b1.take n1) + 2 * cks (b2.take n2)) % 256)
    RiotCrypt_Hash := fun rs data n => (0, List.replicate rs ((cks (data.take n) + 1) % 256))
    RiotCrypt_Hash2 := fun rs d1 n1 d2 n2 =>
      (0, List.replicate rs ((cks (d1.take n1) + 2 * cks (d2.take n2) + 3) % 256))
    RiotCrypt_DeriveEccKey := fun src n label ln =>
      (0, List.replicate 76 ((cks (src.take n) + cks (label.take ln)) % 256),
        List.replicate 36 ((cks (src.take n) + cks (label.take ln) + 7) % 256))
    RiotCrypt_Sign := fun data n key => (0, [cks (data.take n), cks key, 0, 0])
    RiotCrypt_Sign_leaves := fun sig _ _ _ => sig
    DERInitContext := fun _ buf len => { Buffer := buf, Length := len, Position := 0, Nesting := [] }
    X509GetDEREccPub := fun ctx pub => (0, demoWrite ctx [0x30, cks pub])
    X509GetDEREcc := fun ctx pub priv => (0, demoWrite ctx [0x31, cks pub, cks priv])
    X509GetDeviceCertTBS := fun ctx tbs pub => (0, demoWrite ctx [0xA0, cks tbs.SerialNum, cks pub])
    X509GetAliasCertTBS := fun ctx tbs apub dpub fw n =>
      (0, demoWrite ctx [0xA1, cks tbs.SerialNum, cks apub, cks dpub, cks (fw.take n)])
    X509GetDERCsrTbs := fun ctx tbs pub =>
      (0, demoWrite ctx [0xA2, (tbs.SubjectCommon.getD "").length, cks pub])
    X509MakeAliasCert := fun ctx sig => (0, demoAppend ctx (sig.take 2))
    X509MakeDeviceCert := fun ctx sig => (0, demoAppend ctx (sig.take 2))
    X509MakeRootCert := fun ctx sig => (0, demoAppend ctx (sig.take 2))
    X509GetDERCsr := fun ctx sig => (0, demoAppend ctx (sig.take 2))
    DERtoPEM := demoDERtoPEM }

/-- The state after `initialize_riot_system` has run once against the demo provider. -/
def demoGlobals : Globals := (initialize_riot_system demoProvider Globals.initial).2

/-! ## Vocabulary of the theorems -/

/-- The builder context every certificate and key encoding starts from. -/
def freshContext (P : Provider) : DERBuilderContext :=
  P.DERInitContext DERBuilderContext.zero (zeroed P.DER_MAX_TBS) P.DER_MAX_TBS

/-- The log entry of the context initialisation that opens every encoding. -/
def initCall (P : Provider) : Invocation :=
  ⟨.DERInitContext DERBuilderContext.zero (zeroed P.DER_MAX_TBS) P.DER_MAX_TBS, 0⟩

/-- Invocations all of which reported success. -/
def AllSucceeded (l : List Invocation) : Prop := ∀ i ∈ l, i.status = 0

instance (l : List Invocation) : Decidable (AllSucceeded l) := by
  unfold AllSucceeded
  infer_instance

/-- What a step that threads the state does to the log: it appends the
invocations it made, and it returns zero exactly when all of them succeeded. -/
def LogsItsCalls {α : Type} (r : Int × α × Globals) (g : Globals) : Prop :=
  ∃ new, r.2.2.calls = g.calls ++ new ∧ (r.1 = 0 ↔ AllSucceeded new)

/-- The three file-scope variables are the same in both states. -/
def SameGlobals (g g' : Globals) : Prop :=
  g'.g_digest_initialized = g.g_digest_initialized ∧ g'.g_digest = g.g_digest ∧
    g'.g_CDI = g.g_CDI

/-- The invocations a run appended to the log of the state it started from. -/
def newCalls (g g' : Globals) : List Invocation := g'.calls.drop g.calls.length

/-- Every value produced on the way to a handle: the digests and key pairs,
and for each encoded artifact the DER record, its text and the text length. -/
structure KeyChain where
  digest : Bytes
  device_id_pub : RIOT_ECC_PUBLIC
  device_id_priv : RIOT_ECC_PRIVATE
  alias_seed : Bytes
  alias_key_pub : RIOT_ECC_PUBLIC
  alias_key_priv : RIOT_ECC_PRIVATE
  device_id_der : DERBuilderContext
  device_id_public_pem : Bytes
  device_id_length : Nat
  alias_key_der : DERBuilderContext
  alias_priv_key_pem : Bytes
  alias_key_length : Nat
  alias_tbs : DERBuilderContext
  alias_sig : RIOT_ECC_SIGNATURE
  alias_cert : DERBuilderContext
  alias_cert_pem : Bytes
  alias_cert_length : Nat
  device_tbs : DERBuilderContext
  device_sig : RIOT_ECC_SIGNATURE
  device_cert : DERBuilderContext
  device_signed_pem : Bytes
  device_signed_length : Nat
  root_tbs : DERBuilderContext
  root_sig : RIOT_ECC_SIGNATURE
  root_cert : DERBuilderContext
  root_ca_pem : Bytes
  root_ca_length : Nat
  root_key_der : DERBuilderContext
  root_ca_priv_pem : Bytes
  root_ca_priv_length : Nat

/-- The provider calls that link the values of a key chain, each reporting
success: `cdi` is the composite identifier the chain starts from and `info`
the handle record the text buffers are written into. -/
def KeyChain.Holds (c : KeyChain) (P : Provider) (cdi : Bytes)
    (info : DPS_SECURE_DEVICE_INFO) : Prop :=
  P.RiotCrypt_Hash RIOT_DIGEST_LENGTH cdi DICE_DIGEST_LENGTH = (RIOT_SUCCESS, c.digest) ∧
  P.RiotCrypt_DeriveEccKey c.digest DICE_DIGEST_LENGTH P.RIOT_LABEL_IDENTITY
    (lblSize P.RIOT_LABEL_IDENTITY) = (RIOT_SUCCESS, c.device_id_pub, c.device_id_priv) ∧
  P.RiotCrypt_Hash2 DICE_DIGEST_LENGTH c.digest DICE_DIGEST_LENGTH firmware_id
    RIOT_DIGEST_LENGTH = (RIOT_SUCCESS, c.alias_seed) ∧
  P.RiotCrypt_DeriveEccKey c.alias_seed RIOT_DIGEST_LENGTH P.RIOT_LABEL_ALIAS
    (lblSize P.RIOT_LABEL_ALIAS) = (RIOT_SUCCESS, c.alias_key_pub, c.alias_key_priv) ∧
  P.X509GetDEREccPub (freshContext P) c.device_id_pub = (0, c.device_id_der) ∧
  P.DERtoPEM c.device_id_der P.PUBLICKEY_TYPE info.device_id_public_pem P.DER_MAX_PEM
    = (0, c.device_id_public_pem, c.device_id_length) ∧
  P.X509GetDEREcc (freshContext P) c.alias_key_pub c.alias_key_priv = (0, c.alias_key_der) ∧
  P.DERtoPEM c.alias_key_der P.ECC_PRIVATEKEY_TYPE info.alias_priv_key_pem P.DER_MAX_PEM
    = (0, c.alias_priv_key_pem, c.alias_key_length) ∧
  P.X509GetAliasCertTBS (freshContext P) X509_ALIAS_TBS_DATA c.alias_key_pub c.device_id_pub
    firmware_id RIOT_DIGEST_LENGTH = (0, c.alias_tbs) ∧
  P.RiotCrypt_Sign c.alias_tbs.Buffer c.alias_tbs.Position c.device_id_priv
    = (RIOT_SUCCESS, c.alias_sig) ∧
  P.X509MakeAliasCert c.alias_tbs c.alias_sig = (0, c.alias_cert) ∧
  P.DERtoPEM c.alias_cert P.CERT_TYPE info.alias_cert_pem P.DER_MAX_PEM
    = (0, c.alias_cert_pem, c.alias_cert_length) ∧
  P.X509GetDeviceCertTBS (freshContext P) X509_DEVICE_TBS_DATA c.device_id_pub
    = (0, c.device_tbs) ∧
  P.RiotCrypt_Sign c.device_tbs.Buffer c.device_tbs.Position eccRootPrivBytes
    = (RIOT_SUCCESS, c.device_sig) ∧
  P.X509MakeDeviceCert c.device_tbs c.device_sig = (0, c.device_cert) ∧
  P.DERtoPEM c.device_cert P.CERT_TYPE info.device_signed_pem P.DER_MAX_PEM
    = (0, c.device_signed_pem, c.device_signed_length) ∧
  P.X509GetDeviceCertTBS (freshContext P) X509_ROOT_TBS_DATA eccRootPubBytes
    = (0, c.root_tbs) ∧
  P.RiotCrypt_Sign c.root_tbs.Buffer c.root_tbs.Position c.device_id_priv
    = (RIOT_SUCCESS, c.root_sig) ∧
  P.X509MakeRootCert c.root_tbs c.root_sig = (0, c.root_cert) ∧
  P.DERtoPEM c.root_cert P.CERT_TYPE info.root_ca_pem P.DER_MAX_PEM
    = (0, c.root_ca_pem, c.root_ca_length) ∧
  P.X509GetDEREcc (freshContext P) eccRootPubBytes eccRootPrivBytes = (0, c.root_key_der) ∧
  P.DERtoPEM c.root_key_der P.ECC_PRIVATEKEY_TYPE info.root_ca_priv_pem P.DER_MAX_PEM
    = (0, c.root_ca_priv_pem, c.root_ca_priv_length) ∧
  P.malloc_succeeds (strlen RIOT_COMMON_NAME + 1) = true

/-- The provider invocations of a key chain, in the order in which
`process_riot_key_info` makes them, each with the status of success. -/
def KeyChain.calls (c : KeyChain) (P : Provider) (cdi : Bytes)
    (info : DPS_SECURE_DEVICE_INFO) : List Invocation :=
  [⟨.RiotCrypt_Hash RIOT_DIGEST_LENGTH cdi DICE_DIGEST_LENGTH, 0⟩,
   ⟨.RiotCrypt_DeriveEccKey c.digest DICE_DIGEST_LENGTH P.RIOT_LABEL_IDENTITY
      (lblSize P.RIOT_LABEL_IDENTITY), 0⟩,
   ⟨.RiotCrypt_Hash2 DICE_DIGEST_LENGTH c.digest DICE_DIGEST_LENGTH firmware_id
      RIOT_DIGEST_LENGTH, 0⟩,
   ⟨.RiotCrypt_DeriveEccKey c.alias_seed RIOT_DIGEST_LENGTH P.RIOT_LABEL_ALIAS
      (lblSize P.RIOT_LABEL_ALIAS), 0⟩,
   initCall P,
   ⟨.X509GetDEREccPub (freshContext P) c.device_id_pub, 0⟩,
   ⟨.DERtoPEM c.device_id_der P.PUBLICKEY_TYPE info.device_id_public_pem P.DER_MAX_PEM, 0⟩,
   initCall P,
   ⟨.X509GetDEREcc (freshContext P) c.alias_key_pub c.alias_key_priv, 0⟩,
   ⟨.DERtoPEM c.alias_key_der P.ECC_PRIVATEKEY_TYPE info.alias_priv_key_pem P.DER_MAX_PEM, 0⟩,
   initCall P,
   ⟨.X509GetAliasCertTBS (freshContext P) X509_ALIAS_TBS_DATA c.alias_key_pub c.device_id_pub
      firmware_id RIOT_DIGEST_LENGTH, 0⟩,
   ⟨.RiotCrypt_Sign c.alias_tbs.Buffer c.alias_tbs.Position c.device_id_priv, 0⟩,
   ⟨.X509MakeAliasCert c.alias_tbs c.alias_sig, 0⟩,
   ⟨.DERtoPEM c.alias_cert P.CERT_TYPE info.alias_cert_pem P.DER_MAX_PEM, 0⟩,
   initCall P,
   ⟨.X509GetDeviceCertTBS (freshContext P) X509_DEVICE_TBS_DATA c.device_id_pub, 0⟩,
   ⟨.RiotCrypt_Sign c.device_tbs.Buffer c.device_tbs.Position eccRootPrivBytes, 0⟩,
   ⟨.X509MakeDeviceCert c.device_tbs c.device_sig, 0⟩,
   ⟨.DERtoPEM c.device_cert P.CERT_TYPE info.device_signed_pem P.DER_MAX_PEM, 0⟩,
   initCall P,
   ⟨.X509GetDeviceCertTBS (freshContext P) X509_ROOT_TBS_DATA eccRootPubBytes, 0⟩,
   ⟨.RiotCrypt_Sign c.root_tbs.Buffer c.root_tbs.Position c.device_id_priv, 0⟩,
   ⟨.X509MakeRootCert c.root_tbs c.root_sig, 0⟩,
   ⟨.DERtoPEM c.root_cert P.CERT_TYPE info.root_ca_pem P.DER_MAX_PEM, 0⟩,
   initCall P,
   ⟨.X509GetDEREcc (freshContext P) eccRootPubBytes eccRootPrivBytes, 0⟩,
   ⟨.DERtoPEM c.root_key_der P.ECC_PRIVATEKEY_TYPE info.root_ca_priv_pem P.DER_MAX_PEM, 0⟩,
   ⟨.mallocAndStrcpy_s (some RIOT_COMMON_NAME), 0⟩]

/-- The handle record a key chain fills in. -/
def KeyChain.handle (c : KeyChain) : DPS_SECURE_DEVICE_INFO :=
  { device_id_pub := c.device_id_pub
    device_id_priv := c.device_id_priv
    alias_key_pub := c.alias_key_pub
    alias_key_priv := c.alias_key_priv
    ca_root_pub := eccRootPubBytes
    ca_root_priv := eccRootPrivBytes
    certificate_common_name := some RIOT_COMMON_NAME
    device_id_length := c.device_id_length
    device_id_public_pem := c.device_id_public_pem
    device_signed_length := c.device_signed_length
    device_signed_pem := c.device_signed_pem
    alias_key_length := c.alias_key_length
    alias_priv_key_pem := c.alias_priv_key_pem
    alias_cert_length := c.alias_cert_length
    alias_cert_pem := c.alias_cert_pem
    root_ca_length := c.root_ca_length
    root_ca_pem := c.root_ca_pem
    root_ca_priv_length := c.root_ca_priv_length
    root_ca_priv_pem := c.root_ca_priv_pem }

/-- The handle `dps_hsm_riot_create` returns for the demo provider. -/
def demoHandle : DPS_SECURE_DEVICE_INFO :=
  { device_id_pub := List.replicate 76 59
    device_id_priv := List.replicate 36 66
    alias_key_pub := List.replicate 76 173
    alias_key_priv := List.replicate 36 180
    ca_root_pub := eccRootPubBytes
    ca_root_priv := eccRootPrivBytes
    certificate_common_name := some "riot-device-cert"
    device_id_length := 2
    device_id_public_pem := [48, 217, 0, 0, 0, 0, 0, 0]
    device_signed_length := 5
    device_signed_pem := [160, 60, 217, 186, 112, 0, 0, 0]
    alias_key_length := 3
    alias_priv_key_pem := [49, 96, 205, 0, 0, 0, 0, 0]
    alias_cert_length := 7
    alias_cert_pem := [161, 60, 96, 217, 168, 200, 117, 0]
    root_ca_length := 5
    root_ca_pem := [160, 49, 232, 190, 117, 0, 0, 0]
    root_ca_priv_length := 3
    root_ca_priv_pem := [49, 232, 112, 0, 0, 0, 0, 0] }

/-- Some contents for the uninitialised locals of the leaf operation. -/
def demoLeafLocals : LeafLocals :=
  { leaf_id_pub := List.replicate 76 0xAA, leaf_id_priv := List.replicate 36 0xBB, leaf_len := 9 }

/-- The demo provider with a root-certificate finaliser that reports failure. -/
def failingProvider : Provider :=
  { demoProvider with X509MakeRootCert := fun ctx _ => (-1, ctx) }

/-- The operations of the module, as far as the file-scope variables are
concerned.  `dps_hsm_riot_destroy` and the accessors read or free a handle and
touch no file-scope variable: they are the operation `handle_only`. -/
inductive Operation
  | initialize_riot_system
  | deinitialize_riot_system
  | dps_hsm_riot_create
  | dps_hsm_riot_create_leaf_cert (locals : LeafLocals)
      (handle : Ptr DPS_SECURE_DEVICE_INFO) (common_name : Ptr String)
  | handle_only

/-- The state an operation leaves behind. -/
def Operation.run (P : Provider) : Operation → Globals → Globals
  | .initialize_riot_system, g => (DpsHsmRiot.initialize_riot_system P g).2
  | .deinitialize_riot_system, g => DpsHsmRiot.deinitialize_riot_system g
  | .dps_hsm_riot_create, g => (DpsHsmRiot.dps_hsm_riot_create P g).2
  | .dps_hsm_riot_create_leaf_cert locals handle common_name, g =>
    (DpsHsmRiot.dps_hsm_riot_create_leaf_cert P locals handle common_name g).2.2
  | .handle_only, g => g

/-- The state after a sequence of operations, each against its own provider. -/
def runAll : List (Provider × Operation) → Globals → Globals
  | [], g => g
  | (P, op) :: rest, g => runAll rest (op.run P g)

/-- The assumption on the text encoder: when it reports success, the length it
writes back is no greater than the capacity it was given. -/
def EncoderRespectsCapacity (P : Provider) : Prop :=
  ∀ ctx type pem length, (P.DERtoPEM ctx type pem length).1 = 0 →
    (P.DERtoPEM ctx type pem length).2.2 ≤ length

/-- The text buffer is an array: whatever the encoder writes, the buffer has
the size it had. -/
def EncoderKeepsBuffer (P : Provider) : Prop :=
  ∀ ctx type pem length, (P.DERtoPEM ctx type pem length).2.1.length = pem.length

/-- A recorded length that stays inside its text buffer and whose successor
fits the 32-bit arithmetic of the accessors. -/
def WithinBuffer (pem : Bytes) (L : Nat) : Prop := L ≤ pem.length ∧ L + 1 < 2 ^ 32

/-- The outcome of an accessor that hands out a terminated copy: a buffer of
`L + 1` bytes whose first `L` bytes are the first `L` bytes of `pem` and whose
last byte is zero, with the record behind the handle as it was. -/
def CopiesOut (r : Option (Ptr Bytes × Ptr DPS_SECURE_DEVICE_INFO))
    (h : DPS_SECURE_DEVICE_INFO) (pem : Bytes) (L : Nat) : Prop :=
  ∃ buf, r = some (some buf, some h) ∧ buf.length = L + 1 ∧
    buf.take L = pem.take L ∧ buf[L]? = some 0

/-- The buffer an accessor returns is a fresh one: `malloc` handed out a block
of `L + 1` bytes, and what is returned is that block after it was zeroed and
the first `L` bytes of `pem` were copied over its front. -/
def FromAllocation (A : Provider) (r : Option (Ptr Bytes × Ptr DPS_SECURE_DEVICE_INFO))
    (pem : Bytes) (L : Nat) : Prop :=
  ∃ block buf, malloc A (L + 1) = some block ∧ block.length = L + 1 ∧
    (memset block 0 (L + 1)).bind (fun b => memcpy b pem L) = some buf ∧
    r.map Prod.fst = some (some buf)

/-- The name of the primitive a call invokes. -/
def Call.name : Call → String
  | .DiceSHA256 _ _ => "DiceSHA256"
  | .DiceSHA256_2 _ _ _ _ => "DiceSHA256_2"
  | .RiotCrypt_Hash _ _ _ => "RiotCrypt_Hash"
  | .RiotCrypt_Hash2 _ _ _ _ _ => "RiotCrypt_Hash2"
  | .RiotCrypt_DeriveEccKey _ _ _ _ => "RiotCrypt_DeriveEccKey"
  | .RiotCrypt_Sign _ _ _ => "RiotCrypt_Sign"
  | .DERInitContext _ _ _ => "DERInitContext"
  | .X509GetDEREccPub _ _ => "X509GetDEREccPub"
  | .X509GetDEREcc _ _ _ => "X509GetDEREcc"
  | .X509GetDeviceCertTBS _ _ _ => "X509GetDeviceCertTBS"
  | .X509GetAliasCertTBS _ _ _ _ _ _ => "X509GetAliasCertTBS"
  | .X509GetDERCsrTbs _ _ _ => "X509GetDERCsrTbs"
  | .X509MakeAliasCert _ _ => "X509MakeAliasCert"
  | .X509MakeDeviceCert _ _ => "X509MakeDeviceCert"
  | .X509MakeRootCert _ _ => "X509MakeRootCert"
  | .X509GetDERCsr _ _ => "X509GetDERCsr"
  | .DERtoPEM _ _ _ _ => "DERtoPEM"
  | .mallocAndStrcpy_s _ => "mallocAndStrcpy_s"

/-- The steps of a complete `process_riot_key_info`, in order. -/
def createSteps : List String :=
  ["RiotCrypt_Hash", "RiotCrypt_DeriveEccKey", "RiotCrypt_Hash2", "RiotCrypt_DeriveEccKey",
   "DERInitContext", "X509GetDEREccPub", "DERtoPEM",
   "DERInitContext", "X509GetDEREcc", "DERtoPEM",
   "DERInitContext", "X509GetAliasCertTBS", "RiotCrypt_Sign", "X509MakeAliasCert", "DERtoPEM",
   "DERInitContext", "X509GetDeviceCertTBS", "RiotCrypt_Sign", "X509MakeDeviceCert", "DERtoPEM",
   "DERInitContext", "X509GetDeviceCertTBS", "RiotCrypt_Sign", "X509MakeRootCert", "DERtoPEM",
   "DERInitContext", "X509GetDEREcc", "DERtoPEM",
   "mallocAndStrcpy_s"]

/-- Whether a call is a key derivation. -/
def Call.isKeyDerivation : Call → Bool
  | .RiotCrypt_DeriveEccKey _ _ _ _ => true
  | _ => false

/-- The text buffer and the capacity a call hands to the text encoder. -/
def Call.encoderRequest : Call → Option (Bytes × Nat)
  | .DERtoPEM _ _ pem length => some (pem, length)
  | _ => none

/-! ## The producers, one at a time -/

theorem produce_device_id_public_log (P : Provider) (info : DPS_SECURE_DEVICE_INFO)
    (g : Globals) :
    LogsItsCalls (produce_device_id_public P info g) g ∧
      SameGlobals g (produce_device_id_public P info g).2.2 := by
  unfold produce_device_id_public LogsItsCalls AllSucceeded SameGlobals
  lift_lets
  intro der_buffer der_ctx g1 r g2 der_ctx2 info1 e g3 info2
  clear_value der_ctx r e
  simp only [g1, g2, g3, Globals.record, List.append_assoc]
  split_ifs <;> exact ⟨⟨_, rfl, by simp_all [__FAILURE__]⟩, rfl, rfl, rfl⟩

theorem produce_device_id_public_ok (P : Provider) (info : DPS_SECURE_DEVICE_INFO)
    (g : Globals) (h : (produce_device_id_public P info g).1 = 0) :
    ∃ der pem len,
      P.X509GetDEREccPub (freshContext P) info.device_id_pub = (0, der) ∧
      P.DERtoPEM der P.PUBLICKEY_TYPE info.device_id_public_pem P.DER_MAX_PEM = (0, pem, len) ∧
      (produce_device_id_public P info g).2.1 =
        { info with device_id_public_pem := pem, device_id_length := len } ∧
      (produce_device_id_public P info g).2.2.calls = g.calls ++
        [initCall P, ⟨.X509GetDEREccPub (freshContext P) info.device_id_pub, 0⟩,
         ⟨.DERtoPEM der P.PUBLICKEY_TYPE info.device_id_public_pem P.DER_MAX_PEM, 0⟩] := by
  revert h
  unfold produce_device_id_public freshContext initCall
  lift_lets
  intro der_buffer der_ctx g1 r g2 der_ctx2 info1 e g3 info2
  split_ifs with h1 h2
  · simp [__FAILURE__]
  · simp [__FAILURE__]
  · intro _
    simp only [ne_eq, not_not] at h1 h2
    refine ⟨r.2, e.2.1, e.2.2, Prod.ext h1 rfl, Prod.ext h2 rfl, rfl, ?_⟩
    simp only [g3, g2, g1, Globals.record, List.append_assoc, h1, h2]
    rfl

theorem produce_alias_key_pair_log (P : Provider) (info : DPS_SECURE_DEVICE_INFO)
    (g : Globals) :
    LogsItsCalls (produce_alias_key_pair P info g) g ∧
      SameGlobals g (produce_alias_key_pair P info g).2.2 := by
  unfold produce_alias_key_pair LogsItsCalls AllSucceeded SameGlobals
  lift_lets
  intro der_buffer der_ctx g1 r g2 der_ctx2 info1 e g3 info2
  clear_value der_ctx r e
  simp only [g1, g2, g3, Globals.record, List.append_assoc]
  split_ifs <;> exact ⟨⟨_, rfl, by simp_all [__FAILURE__]⟩, rfl, rfl, rfl⟩

theorem produce_alias_key_pair_ok (P : Provider) (info : DPS_SECURE_DEVICE_INFO)
    (g : Globals) (h : (produce_alias_key_pair P info g).1 = 0) :
    ∃ der pem len,
      P.X509GetDEREcc (freshContext P) info.alias_key_pub info.alias_key_priv = (0, der) ∧
      P.DERtoPEM der P.ECC_PRIVATEKEY_TYPE info.alias_priv_key_pem P.DER_MAX_PEM
        = (0, pem, len) ∧
      (produce_alias_key_pair P info g).2.1 =
        { info with alias_priv_key_pem := pem, alias_key_length := len } ∧
      (produce_alias_key_pair P info g).2.2.calls = g.calls ++
        [initCall P, ⟨.X509GetDEREcc (freshContext P) info.alias_key_pub info.alias_key_priv, 0⟩,
         ⟨.DERtoPEM der P.ECC_PRIVATEKEY_TYPE info.alias_priv_key_pem P.DER_MAX_PEM, 0⟩] := by
  revert h
  unfold produce_alias_key_pair freshContext initCall
  lift_lets
  intro der_buffer der_ctx g1 r g2 der_ctx2 info1 e g3 info2
  split_ifs with h1 h2
  · simp [__FAILURE__]
  · simp [__FAILURE__]
  · intro _
    simp only [ne_eq, not_not] at h1 h2
    refine ⟨r.2, e.2.1, e.2.2, Prod.ext h1 rfl, Prod.ext h2 rfl, rfl, ?_⟩
    simp only [g3, g2, g1, Globals.record, List.append_assoc, h1, h2]
    rfl

theorem produce_alias_key_cert_log (P : Provider) (info : DPS_SECURE_DEVICE_INFO)
    (cert_ctx : DERBuilderContext) (g : Globals) :
    LogsItsCalls (produce_alias_key_cert P info cert_ctx g) g ∧
      SameGlobals g (produce_alias_key_cert P info cert_ctx g).2.2 := by
  unfold produce_alias_key_cert LogsItsCalls AllSucceeded SameGlobals
  lift_lets
  intro info1 e g1 info2
  clear_value e
  simp only [g1, Globals.record, List.append_assoc]
  split_ifs <;> exact ⟨⟨_, rfl, by simp_all [__FAILURE__]⟩, rfl, rfl, rfl⟩

theorem produce_alias_key_cert_ok (P : Provider) (info : DPS_SECURE_DEVICE_INFO)
    (cert_ctx : DERBuilderContext) (g : Globals)
    (h : (produce_alias_key_cert P info cert_ctx g).1 = 0) :
    ∃ pem len,
      P.DERtoPEM cert_ctx P.CERT_TYPE info.alias_cert_pem P.DER_MAX_PEM = (0, pem, len) ∧
      (produce_alias_key_cert P info cert_ctx g).2.1 =
        { info with alias_cert_pem := pem, alias_cert_length := len } ∧
      (produce_alias_key_cert P info cert_ctx g).2.2.calls = g.calls ++
        [⟨.DERtoPEM cert_ctx P.CERT_TYPE info.alias_cert_pem P.DER_MAX_PEM, 0⟩] := by
  revert h
  unfold produce_alias_key_cert
  lift_lets
  intro info1 e g1 info2
  split_ifs with h1
  · simp [__FAILURE__]
  · intro _
    simp only [ne_eq, not_not] at h1
    refine ⟨e.2.1, e.2.2, Prod.ext h1 rfl, rfl, ?_⟩
    simp only [g1, Globals.record, h1]

theorem produce_device_cert_log (P : Provider) (info : DPS_SECURE_DEVICE_INFO)
    (sig : RIOT_ECC_SIGNATURE) (g : Globals) :
    LogsItsCalls (produce_device_cert P info sig .type_root_signed g) g ∧
      SameGlobals g (produce_device_cert P info sig .type_root_signed g).2.2 := by
  unfold produce_device_cert LogsItsCalls AllSucceeded SameGlobals
  simp -zeta only [reduceCtorEq, ↓reduceIte]
  lift_lets
  intro der_buffer der_ctx g1 t g2 der_ctx2 s g3 tbs_sig m g4 built result der_ctx3 g5
    info1 e g6 info2
  clear_value der_ctx t s m e
  simp only [result, der_ctx3, g5, built, g1, g2, g3, g4, g6, Globals.record,
    List.append_assoc, RIOT_SUCCESS]
  split_ifs <;> first
    | exact ⟨⟨_, rfl, by simp_all [__FAILURE__]⟩, rfl, rfl, rfl⟩
    | simp_all [__FAILURE__]

theorem produce_device_cert_ok (P : Provider) (info : DPS_SECURE_DEVICE_INFO)
    (sig : RIOT_ECC_SIGNATURE) (g : Globals)
    (h : (produce_device_cert P info sig .type_root_signed g).1 = 0) :
    ∃ tbs signature cert pem len,
      P.X509GetDeviceCertTBS (freshContext P) X509_DEVICE_TBS_DATA info.device_id_pub
        = (0, tbs) ∧
      P.RiotCrypt_Sign tbs.Buffer tbs.Position eccRootPrivBytes = (RIOT_SUCCESS, signature) ∧
      P.X509MakeDeviceCert tbs signature = (0, cert) ∧
      P.DERtoPEM cert P.CERT_TYPE info.device_signed_pem P.DER_MAX_PEM = (0, pem, len) ∧
      (produce_device_cert P info sig .type_root_signed g).2.1 =
        { info with device_signed_pem := pem, device_signed_length := len } ∧
      (produce_device_cert P info sig .type_root_signed g).2.2.calls = g.calls ++
        [initCall P,
         ⟨.X509GetDeviceCertTBS (freshContext P) X509_DEVICE_TBS_DATA info.device_id_pub, 0⟩,
         ⟨.RiotCrypt_Sign tbs.Buffer tbs.Position eccRootPrivBytes, 0⟩,
         ⟨.X509MakeDeviceCert tbs signature, 0⟩,
         ⟨.DERtoPEM cert P.CERT_TYPE info.device_signed_pem P.DER_MAX_PEM, 0⟩] := by
  revert h
  unfold produce_device_cert freshContext initCall
  simp -zeta only [reduceCtorEq, ↓reduceIte]
  lift_lets
  intro der_buffer der_ctx g1 t g2 der_ctx2 s g3 tbs_sig m g4 built result der_ctx3 g5
    info1 e g6 info2
  by_cases h1 : t.1 = 0
  · by_cases h2 : s.1 = RIOT_SUCCESS
    · by_cases h3 : m.1 = 0
      · have hb : built = (0, m.2, g4) := by simp [built, h1, h2, h3]
        by_cases h4 : e.1 = 0
        · intro _
          have hd : der_ctx3 = m.2 := by simp [der_ctx3, hb]
          refine ⟨t.2, s.2, m.2, e.2.1, e.2.2, Prod.ext h1 rfl, Prod.ext h2 rfl,
            Prod.ext h3 rfl, ?_, ?_, ?_⟩
          · rw [← hd]
            exact Prod.ext h4 rfl
          · simp [result, hb, h4, info2, info1]
          · have hg5 : g5 = g4 := by simp [g5, hb]
            simp only [result, hb, h4, ne_eq, not_true_eq_false, ↓reduceIte, g6, hg5, ← hd,
              g4, g3, g2, g1, Globals.record, List.append_assoc, h1, h2, h3]
            rfl
        · simp [result, hb, h4, __FAILURE__]
      · have hb : built.1 = __FAILURE__ 317 := by simp [built, h1, h2, h3]
        simp [result, hb, __FAILURE__]
    · have hb : built.1 = __FAILURE__ 312 := by simp [built, h1, h2]
      simp [result, hb, __FAILURE__]
  · have hb : built.1 = __FAILURE__ 306 := by simp [built, h1]
    simp [result, hb, __FAILURE__]

theorem produce_root_ca_log (P : Provider) (info : DPS_SECURE_DEVICE_INFO)
    (sig : RIOT_ECC_SIGNATURE) (g : Globals) :
    LogsItsCalls (produce_root_ca P info sig g) g ∧
      SameGlobals g (produce_root_ca P info sig g).2.2 := by
  unfold produce_root_ca LogsItsCalls AllSucceeded SameGlobals
  lift_lets
  intro der_buffer der_ctx g1 t g2 der_ctx2 s g3 tbs_sig m g4 der_ctx3 info1 e g5 info2
  clear_value der_ctx t s m e
  simp only [g1, g2, g3, g4, g5, Globals.record, List.append_assoc, RIOT_SUCCESS]
  split_ifs <;> exact ⟨⟨_, rfl, by simp_all [__FAILURE__]⟩, rfl, rfl, rfl⟩

theorem produce_root_ca_ok (P : Provider) (info : DPS_SECURE_DEVICE_INFO)
    (sig : RIOT_ECC_SIGNATURE) (g : Globals) (h : (produce_root_ca P info sig g).1 = 0) :
    ∃ tbs signature cert pem len,
      P.X509GetDeviceCertTBS (freshContext P) X509_ROOT_TBS_DATA eccRootPubBytes = (0, tbs) ∧
      P.RiotCrypt_Sign tbs.Buffer tbs.Position info.device_id_priv
        = (RIOT_SUCCESS, signature) ∧
      P.X509MakeRootCert tbs signature = (0, cert) ∧
      P.DERtoPEM cert P.CERT_TYPE info.root_ca_pem P.DER_MAX_PEM = (0, pem, len) ∧
      (produce_root_ca P info sig g).2.1 =
        { info with root_ca_pem := pem, root_ca_length := len } ∧
      (produce_root_ca P info sig g).2.2.calls = g.calls ++
        [initCall P,
         ⟨.X509GetDeviceCertTBS (freshContext P) X509_ROOT_TBS_DATA eccRootPubBytes, 0⟩,
         ⟨.RiotCrypt_Sign tbs.Buffer tbs.Position info.device_id_priv, 0⟩,
         ⟨.X509MakeRootCert tbs signature, 0⟩,
         ⟨.DERtoPEM cert P.CERT_TYPE info.root_ca_pem P.DER_MAX_PEM, 0⟩] := by
  revert h
  unfold produce_root_ca freshContext initCall
  lift_lets
  intro der_buffer der_ctx g1 t g2 der_ctx2 s g3 tbs_sig m g4 der_ctx3 info1 e g5 info2
  split_ifs with h1 h2 h3 h4
  · simp [__FAILURE__]
  · simp [__FAILURE__]
  · simp [__FAILURE__]
  · simp [__FAILURE__]
  · intro _
    simp only [ne_eq, not_not] at h1 h2 h3 h4
    refine ⟨t.2, s.2, m.2, e.2.1, e.2.2, Prod.ext h1 rfl, Prod.ext h2 rfl, Prod.ext h3 rfl,
      Prod.ext h4 rfl, rfl, ?_⟩
    simp only [g5, g4, g3, g2, g1, Globals.record, List.append_assoc, h1, h2, h3, h4,
      RIOT_SUCCESS]
    rfl

theorem produce_priv_key_log (P : Provider) (info : DPS_SECURE_DEVICE_INFO) (g : Globals) :
    LogsItsCalls (produce_priv_key P info g) g ∧
      SameGlobals g (produce_priv_key P info g).2.2 := by
  unfold produce_priv_key LogsItsCalls AllSucceeded SameGlobals
  lift_lets
  intro der_buffer info1 info2 der_ctx g1 r g2 der_ctx2 info3 e g3 info4
  clear_value der_ctx r e
  simp only [g1, g2, g3, Globals.record, List.append_assoc]
  split_ifs <;> exact ⟨⟨_, rfl, by simp_all [__FAILURE__]⟩, rfl, rfl, rfl⟩

theorem produce_priv_key_ok (P : Provider) (info : DPS_SECURE_DEVICE_INFO) (g : Globals)
    (h : (produce_priv_key P info g).1 = 0) :
    ∃ der pem len,
      P.X509GetDEREcc (freshContext P) eccRootPubBytes eccRootPrivBytes = (0, der) ∧
      P.DERtoPEM der P.ECC_PRIVATEKEY_TYPE info.root_ca_priv_pem P.DER_MAX_PEM
        = (0, pem, len) ∧
      (produce_priv_key P info g).2.1 =
        { info with ca_root_pub := eccRootPubBytes, ca_root_priv := eccRootPrivBytes,
                    root_ca_priv_pem := pem, root_ca_priv_length := len } ∧
      (produce_priv_key P info g).2.2.calls = g.calls ++
        [initCall P, ⟨.X509GetDEREcc (freshContext P) eccRootPubBytes eccRootPrivBytes, 0⟩,
         ⟨.DERtoPEM der P.ECC_PRIVATEKEY_TYPE info.root_ca_priv_pem P.DER_MAX_PEM, 0⟩] := by
  revert h
  unfold produce_priv_key freshContext initCall
  have hpub : List.take sizeof_ecc_publickey eccRootPubBytes = eccRootPubBytes :=
    List.take_length _
  have hpriv : List.take sizeof_ecc_privatekey eccRootPrivBytes = eccRootPrivBytes :=
    List.take_length _
  rw [hpub, hpriv]
  lift_lets
  intro der_buffer info1 info2 der_ctx g1 r g2 der_ctx2 info3 e g3 info4
  split_ifs with h1 h2
  · simp [__FAILURE__]
  · simp [__FAILURE__]
  · intro _
    simp only [ne_eq, not_not] at h1 h2
    refine ⟨r.2, e.2.1, e.2.2, Prod.ext h1 rfl, Prod.ext h2 rfl, rfl, ?_⟩
    simp only [g3, g2, g1, Globals.record, List.append_assoc, h1, h2]
    rfl

theorem allSucceeded_nil : AllSucceeded [] := by
  intro i hi
  cases hi

theorem allSucceeded_cons (x : Invocation) (l : List Invocation) :
    AllSucceeded (x :: l) ↔ x.status = 0 ∧ AllSucceeded l := by
  simp [AllSucceeded]

theorem allSucceeded_append (l₁ l₂ : List Invocation) :
    AllSucceeded (l₁ ++ l₂) ↔ AllSucceeded l₁ ∧ AllSucceeded l₂ :=
  List.forall_mem_append

theorem alias_common_name_entered : null_or_empty X509_ALIAS_TBS_DATA.SubjectCommon = false := by
  decide

theorem process_riot_key_info_log (P : Provider) (info : DPS_SECURE_DEVICE_INFO) (g : Globals)
    (hinit : g.g_digest_initialized ≠ 0) :
    LogsItsCalls (process_riot_key_info P info g) g ∧
      (process_riot_key_info P info g).2.2.g_digest_initialized = g.g_digest_initialized ∧
      (process_riot_key_info P info g).2.2.g_CDI = g.g_CDI := by
  generalize hres : process_riot_key_info P info g = res
  unfold process_riot_key_info at hres
  rw [if_neg hinit, alias_common_name_entered] at hres
  simp -zeta only [Bool.false_eq_true, ↓reduceIte] at hres
  lift_lets at hres
  extract_lets h ga gb k gc i1 h2 gd ge a gf i2 p1 p2 i3 gg cert_buffer cc1 gh t gi cc2 s gj
    tbs_sig m gk cc3 p3 p4 p5 p6 i4 gl c gm i5 at hres
  have hp1 : LogsItsCalls p1 gf ∧ SameGlobals gf p1.2.2 := produce_device_id_public_log P i2 gf
  have hp2 : LogsItsCalls p2 p1.2.2 ∧ SameGlobals p1.2.2 p2.2.2 :=
    produce_alias_key_pair_log P p1.2.1 p1.2.2
  have hp3 : LogsItsCalls p3 gk ∧ SameGlobals gk p3.2.2 := produce_alias_key_cert_log P i3 cc3 gk
  have hp4 : LogsItsCalls p4 p3.2.2 ∧ SameGlobals p3.2.2 p4.2.2 :=
    produce_device_cert_log P p3.2.1 tbs_sig p3.2.2
  have hp5 : LogsItsCalls p5 p4.2.2 ∧ SameGlobals p4.2.2 p5.2.2 :=
    produce_root_ca_log P p4.2.1 tbs_sig p4.2.2
  have hp6 : LogsItsCalls p6 p5.2.2 ∧ SameGlobals p5.2.2 p6.2.2 :=
    produce_priv_key_log P p5.2.1 p5.2.2
  clear_value p6 p5 p4 p3 p2 p1 h k h2 a cc1 t s m c
  obtain ⟨⟨n1, hc1, hi1⟩, hf1, -, hd1⟩ := hp1
  obtain ⟨⟨n2, hc2, hi2⟩, hf2, -, hd2⟩ := hp2
  obtain ⟨⟨n3, hc3, hi3⟩, hf3, -, hd3⟩ := hp3
  obtain ⟨⟨n4, hc4, hi4⟩, hf4, -, hd4⟩ := hp4
  obtain ⟨⟨n5, hc5, hi5⟩, hf5, -, hd5⟩ := hp5
  obtain ⟨⟨n6, hc6, hi6⟩, hf6, -, hd6⟩ := hp6
  unfold LogsItsCalls
  simp only [RIOT_SUCCESS] at hres
  by_cases c1 : h.1 = 0
  swap
  · rw [if_pos c1] at hres
    subst hres
    simp only [gb, ga, Globals.record, List.append_assoc]
    exact ⟨⟨_, rfl, by simp_all [__FAILURE__, allSucceeded_nil, allSucceeded_cons, allSucceeded_append]⟩, trivial, trivial⟩
  rw [if_neg (not_not.mpr c1)] at hres
  by_cases c2 : k.1 = 0
  swap
  · rw [if_pos c2] at hres
    subst hres
    simp only [gc, gb, ga, Globals.record, List.append_assoc]
    exact ⟨⟨_, rfl, by simp_all [__FAILURE__, allSucceeded_nil, allSucceeded_cons, allSucceeded_append]⟩, trivial, trivial⟩
  rw [if_neg (not_not.mpr c2)] at hres
  by_cases c3 : h2.1 = 0
  swap
  · rw [if_pos c3] at hres
    subst hres
    simp only [ge, gd, gc, gb, ga, Globals.record, List.append_assoc]
    exact ⟨⟨_, rfl, by simp_all [__FAILURE__, allSucceeded_nil, allSucceeded_cons, allSucceeded_append]⟩, trivial, trivial⟩
  rw [if_neg (not_not.mpr c3)] at hres
  by_cases c4 : a.1 = 0
  swap
  · rw [if_pos c4] at hres
    subst hres
    simp only [gf, ge, gd, gc, gb, ga, Globals.record, List.append_assoc]
    exact ⟨⟨_, rfl, by simp_all [__FAILURE__, allSucceeded_nil, allSucceeded_cons, allSucceeded_append]⟩, trivial, trivial⟩
  rw [if_neg (not_not.mpr c4)] at hres
  have ef : gf.calls = g.calls ++ [⟨_, h.1⟩, ⟨_, k.1⟩, ⟨_, h2.1⟩, ⟨_, a.1⟩] ∧
      gf.g_digest_initialized = g.g_digest_initialized ∧ gf.g_CDI = g.g_CDI :=
    ⟨by simp only [gf, ge, gd, gc, gb, ga, Globals.record, List.append_assoc]; rfl, rfl, rfl⟩
  clear_value gf
  rw [ef.1] at hc1
  rw [ef.2.1] at hf1
  rw [ef.2.2] at hd1
  by_cases c5 : p1.1 = 0
  swap
  · rw [if_pos c5] at hres
    subst hres
    simp only [hc1, hf1, hd1, List.append_assoc]
    exact ⟨⟨_, rfl, by simp_all [__FAILURE__, allSucceeded_nil, allSucceeded_cons, allSucceeded_append]⟩, trivial, trivial⟩
  rw [if_neg (not_not.mpr c5)] at hres
  rw [hc1] at hc2
  rw [hf1] at hf2
  rw [hd1] at hd2
  by_cases c6 : p2.1 = 0
  swap
  · rw [if_pos c6] at hres
    subst hres
    simp only [hc2, hf2, hd2, List.append_assoc]
    exact ⟨⟨_, rfl, by simp_all [__FAILURE__, allSucceeded_nil, allSucceeded_cons, allSucceeded_append]⟩, trivial, trivial⟩
  rw [if_neg (not_not.mpr c6)] at hres
  by_cases c7 : t.1 = 0
  swap
  · rw [if_pos c7] at hres
    subst hres
    simp only [gi, gh, gg, Globals.record, hc2, hf2, hd2, List.append_assoc]
    exact ⟨⟨_, rfl, by simp_all [__FAILURE__, allSucceeded_nil, allSucceeded_cons, allSucceeded_append]⟩, trivial, trivial⟩
  rw [if_neg (not_not.mpr c7)] at hres
  by_cases c8 : s.1 = 0
  swap
  · rw [if_pos c8] at hres
    subst hres
    simp only [gj, gi, gh, gg, Globals.record, hc2, hf2, hd2, List.append_assoc]
    exact ⟨⟨_, rfl, by simp_all [__FAILURE__, allSucceeded_nil, allSucceeded_cons, allSucceeded_append]⟩, trivial, trivial⟩
  rw [if_neg (not_not.mpr c8)] at hres
  by_cases c9 : m.1 = 0
  swap
  · rw [if_pos c9] at hres
    subst hres
    simp only [gk, gj, gi, gh, gg, Globals.record, hc2, hf2, hd2, List.append_assoc]
    exact ⟨⟨_, rfl, by simp_all [__FAILURE__, allSucceeded_nil, allSucceeded_cons, allSucceeded_append]⟩, trivial, trivial⟩
  rw [if_neg (not_not.mpr c9)] at hres
  obtain ⟨L, ek, hL, ekf, ekd⟩ : ∃ L, gk.calls = g.calls ++ L ∧ AllSucceeded L ∧
      gk.g_digest_initialized = g.g_digest_initialized ∧ gk.g_CDI = g.g_CDI := by
    simp only [gk, gj, gi, gh, gg, Globals.record, hc2, hf2, hd2, List.append_assoc]
    exact ⟨_, rfl, by simp_all [allSucceeded_nil, allSucceeded_cons, allSucceeded_append],
      trivial, trivial⟩
  clear hc1 hc2 hf1 hf2 hd1 hd2 hi1 hi2 ef
  clear_value gk
  rw [ek] at hc3
  rw [ekf] at hf3
  rw [ekd] at hd3
  rw [hc3] at hc4
  rw [hf3] at hf4
  rw [hd3] at hd4
  rw [hc4] at hc5
  rw [hf4] at hf5
  rw [hd4] at hd5
  rw [hc5] at hc6
  rw [hf5] at hf6
  rw [hd5] at hd6
  by_cases c10 : p3.1 = 0
  swap
  · rw [if_pos c10] at hres
    subst hres
    simp only [hc3, hf3, hd3, List.append_assoc]
    exact ⟨⟨_, rfl, by simp_all [__FAILURE__, allSucceeded_nil, allSucceeded_cons, allSucceeded_append]⟩, trivial, trivial⟩
  rw [if_neg (not_not.mpr c10)] at hres
  by_cases c11 : p4.1 = 0
  swap
  · rw [if_pos c11] at hres
    subst hres
    simp only [hc4, hf4, hd4, List.append_assoc]
    exact ⟨⟨_, rfl, by simp_all [__FAILURE__, allSucceeded_nil, allSucceeded_cons, allSucceeded_append]⟩, trivial, trivial⟩
  rw [if_neg (not_not.mpr c11)] at hres
  by_cases c12 : p5.1 = 0
  swap
  · rw [if_pos c12] at hres
    subst hres
    simp only [hc5, hf5, hd5, List.append_assoc]
    exact ⟨⟨_, rfl, by simp_all [__FAILURE__, allSucceeded_nil, allSucceeded_cons, allSucceeded_append]⟩, trivial, trivial⟩
  rw [if_neg (not_not.mpr c12)] at hres
  by_cases c13 : p6.1 = 0
  swap
  · rw [if_pos c13] at hres
    subst hres
    simp only [hc6, hf6, hd6, List.append_assoc]
    exact ⟨⟨_, rfl, by simp_all [__FAILURE__, allSucceeded_nil, allSucceeded_cons, allSucceeded_append]⟩, trivial, trivial⟩
  rw [if_neg (not_not.mpr c13)] at hres
  by_cases c14 : c.1 = 0
  swap
  · rw [if_pos c14] at hres
    subst hres
    simp only [gm, gl, Globals.record, hc6, hf6, hd6, List.append_assoc]
    exact ⟨⟨_, rfl, by simp_all [__FAILURE__, allSucceeded_nil, allSucceeded_cons, allSucceeded_append]⟩, trivial, trivial⟩
  rw [if_neg (not_not.mpr c14)] at hres
  subst hres
  simp only [gm, gl, Globals.record, hc6, hf6, hd6, List.append_assoc]
  exact ⟨⟨_, rfl, by simp_all [allSucceeded_nil, allSucceeded_cons, allSucceeded_append]⟩, trivial, trivial⟩

theorem mallocAndStrcpy_s_ok (P : Provider) (d : Ptr String) (s : String)
    (h : (mallocAndStrcpy_s P d (some s)).1 = 0) :
    (mallocAndStrcpy_s P d (some s)).2 = some s ∧ P.malloc_succeeds (strlen s + 1) = true := by
  unfold mallocAndStrcpy_s at h ⊢
  by_cases hm : P.malloc_succeeds (strlen s + 1) = true
  · simp [hm]
  · simp [hm, ENOMEM] at h

theorem process_riot_key_info_ok (P : Provider) (info : DPS_SECURE_DEVICE_INFO) (g : Globals)
    (hok : (process_riot_key_info P info g).1 = 0) :
    ∃ c : KeyChain, c.Holds P g.g_CDI info ∧ (process_riot_key_info P info g).2.1 = c.handle ∧
      g.g_digest_initialized ≠ 0 ∧
      (process_riot_key_info P info g).2.2.g_digest = c.alias_seed ∧
      (process_riot_key_info P info g).2.2.calls = g.calls ++ c.calls P g.g_CDI info := by
  by_cases hinit : g.g_digest_initialized = 0
  · unfold process_riot_key_info at hok
    rw [if_pos hinit] at hok
    simp [__FAILURE__] at hok
  revert hok
  generalize hres : process_riot_key_info P info g = res
  unfold process_riot_key_info at hres
  rw [if_neg hinit, alias_common_name_entered] at hres
  simp -zeta only [Bool.false_eq_true, ↓reduceIte] at hres
  lift_lets at hres
  extract_lets h ga gb k gc i1 h2 gd ge a gf i2 p1 p2 i3 gg cert_buffer cc1 gh t gi cc2 s gj
    tbs_sig m gk cc3 p3 p4 p5 p6 i4 gl c gm i5 at hres
  simp only [RIOT_SUCCESS] at hres
  intro hok
  by_cases c1 : h.1 = 0
  swap
  · rw [if_pos c1] at hres; subst hres; simp [__FAILURE__] at hok
  rw [if_neg (not_not.mpr c1)] at hres
  by_cases c2 : k.1 = 0
  swap
  · rw [if_pos c2] at hres; subst hres; simp [__FAILURE__] at hok
  rw [if_neg (not_not.mpr c2)] at hres
  by_cases c3 : h2.1 = 0
  swap
  · rw [if_pos c3] at hres; subst hres; simp [__FAILURE__] at hok
  rw [if_neg (not_not.mpr c3)] at hres
  by_cases c4 : a.1 = 0
  swap
  · rw [if_pos c4] at hres; subst hres; simp [__FAILURE__] at hok
  rw [if_neg (not_not.mpr c4)] at hres
  by_cases c5 : p1.1 = 0
  swap
  · rw [if_pos c5] at hres; subst hres; simp [__FAILURE__] at hok
  rw [if_neg (not_not.mpr c5)] at hres
  by_cases c6 : p2.1 = 0
  swap
  · rw [if_pos c6] at hres; subst hres; simp [__FAILURE__] at hok
  rw [if_neg (not_not.mpr c6)] at hres
  by_cases c7 : t.1 = 0
  swap
  · rw [if_pos c7] at hres; subst hres; simp [__FAILURE__] at hok
  rw [if_neg (not_not.mpr c7)] at hres
  by_cases c8 : s.1 = 0
  swap
  · rw [if_pos c8] at hres; subst hres; simp [__FAILURE__] at hok
  rw [if_neg (not_not.mpr c8)] at hres
  by_cases c9 : m.1 = 0
  swap
  · rw [if_pos c9] at hres; subst hres; simp [__FAILURE__] at hok
  rw [if_neg (not_not.mpr c9)] at hres
  by_cases c10 : p3.1 = 0
  swap
  · rw [if_pos c10] at hres; subst hres; simp [__FAILURE__] at hok
  rw [if_neg (not_not.mpr c10)] at hres
  by_cases c11 : p4.1 = 0
  swap
  · rw [if_pos c11] at hres; subst hres; simp [__FAILURE__] at hok
  rw [if_neg (not_not.mpr c11)] at hres
  by_cases c12 : p5.1 = 0
  swap
  · rw [if_pos c12] at hres; subst hres; simp [__FAILURE__] at hok
  rw [if_neg (not_not.mpr c12)] at hres
  by_cases c13 : p6.1 = 0
  swap
  · rw [if_pos c13] at hres; subst hres; simp [__FAILURE__] at hok
  rw [if_neg (not_not.mpr c13)] at hres
  by_cases c14 : c.1 = 0
  swap
  · rw [if_pos c14] at hres; subst hres; simp [__FAILURE__] at hok
  rw [if_neg (not_not.mpr c14)] at hres
  subst hres
  clear hok
  obtain ⟨der1, pem1, len1, e1a, e1b, e1c, l1⟩ := produce_device_id_public_ok P i2 gf c5
  replace e1c : p1.2.1 = _ := e1c
  replace l1 : p1.2.2.calls = gf.calls ++ _ := l1
  obtain ⟨der2, pem2, len2, e2a, e2b, e2c, l2⟩ := produce_alias_key_pair_ok P p1.2.1 p1.2.2 c6
  replace e2c : p2.2.1 = _ := e2c
  replace l2 : p2.2.2.calls = p1.2.2.calls ++ _ := l2
  obtain ⟨pem3, len3, e3b, e3c, l3⟩ := produce_alias_key_cert_ok P i3 cc3 gk c10
  replace e3b : P.DERtoPEM m.2 P.CERT_TYPE p2.2.1.alias_cert_pem P.DER_MAX_PEM
    = (0, pem3, len3) := e3b
  replace e3c : p3.2.1 = { p2.2.1 with alias_cert_pem := pem3, alias_cert_length := len3 } :=
    e3c
  obtain ⟨tbs4, sig4, cert4, pem4, len4, e4a, e4s, e4m, e4b, e4c, l4⟩ :=
    produce_device_cert_ok P p3.2.1 tbs_sig p3.2.2 c11
  replace e4c : p4.2.1 = _ := e4c
  replace l4 : p4.2.2.calls = p3.2.2.calls ++ _ := l4
  obtain ⟨tbs5, sig5, cert5, pem5, len5, e5a, e5s, e5m, e5b, e5c, l5⟩ :=
    produce_root_ca_ok P p4.2.1 tbs_sig p4.2.2 c12
  replace e5c : p5.2.1 = _ := e5c
  replace l5 : p5.2.2.calls = p4.2.2.calls ++ _ := l5
  obtain ⟨der6, pem6, len6, e6a, e6b, e6c, l6⟩ := produce_priv_key_ok P p5.2.1 p5.2.2 c13
  replace e6c : p6.2.1 = _ := e6c
  replace l6 : p6.2.2.calls = p5.2.2.calls ++ _ := l6
  obtain ⟨ecn, emalloc⟩ := mallocAndStrcpy_s_ok P i4.certificate_common_name RIOT_COMMON_NAME c14
  replace ecn : c.2 = some RIOT_COMMON_NAME := ecn
  have et : P.X509GetAliasCertTBS (freshContext P) X509_ALIAS_TBS_DATA p2.2.1.alias_key_pub
      p2.2.1.device_id_pub firmware_id RIOT_DIGEST_LENGTH = (0, t.2) := Prod.ext c7 rfl
  have es : P.RiotCrypt_Sign t.2.Buffer t.2.Position p2.2.1.device_id_priv = (RIOT_SUCCESS, s.2) :=
    Prod.ext c8 rfl
  have em : P.X509MakeAliasCert t.2 s.2 = (0, m.2) := Prod.ext c9 rfl
  replace l3 : p3.2.2.calls = gk.calls ++
      [⟨.DERtoPEM m.2 P.CERT_TYPE p2.2.1.alias_cert_pem P.DER_MAX_PEM, 0⟩] := l3
  rw [e1c] at e2a e2b e2c l2
  rw [e2c] at et es e3b e3c l3
  rw [e3c] at e4a e4b e4c l4
  rw [e4c] at e5s e5b e5c l5
  rw [e5c] at e6b e6c l6
  refine ⟨{ digest := h.2, device_id_pub := k.2.1, device_id_priv := k.2.2, alias_seed := h2.2,
            alias_key_pub := a.2.1, alias_key_priv := a.2.2, device_id_der := der1,
            device_id_public_pem := pem1, device_id_length := len1, alias_key_der := der2,
            alias_priv_key_pem := pem2, alias_key_length := len2, alias_tbs := t.2,
            alias_sig := s.2, alias_cert := m.2, alias_cert_pem := pem3,
            alias_cert_length := len3, device_tbs := tbs4, device_sig := sig4,
            device_cert := cert4, device_signed_pem := pem4, device_signed_length := len4,
            root_tbs := tbs5, root_sig := sig5, root_cert := cert5, root_ca_pem := pem5,
            root_ca_length := len5, root_key_der := der6, root_ca_priv_pem := pem6,
            root_ca_priv_length := len6 }, ?_, ?_, hinit, ?_, ?_⟩
  · exact ⟨Prod.ext c1 rfl, Prod.ext c2 rfl, Prod.ext c3 rfl, Prod.ext c4 rfl, e1a, e1b, e2a,
      e2b, et, es, em, e3b, e4a, e4s, e4m, e4b, e5a, e5s, e5m, e5b, e6a, e6b, emalloc⟩
  · show ({ p6.2.1 with certificate_common_name := c.2 } : DPS_SECURE_DEVICE_INFO) = _
    rw [e6c, ecn]
    rfl
  · have d1 : p1.2.2.g_digest = h2.2 := (produce_device_id_public_log P i2 gf).2.2.1
    have d2 : p2.2.2.g_digest = p1.2.2.g_digest :=
      (produce_alias_key_pair_log P p1.2.1 p1.2.2).2.2.1
    have d3 : p3.2.2.g_digest = p2.2.2.g_digest := (produce_alias_key_cert_log P i3 cc3 gk).2.2.1
    have d4 : p4.2.2.g_digest = p3.2.2.g_digest :=
      (produce_device_cert_log P p3.2.1 tbs_sig p3.2.2).2.2.1
    have d5 : p5.2.2.g_digest = p4.2.2.g_digest :=
      (produce_root_ca_log P p4.2.1 tbs_sig p4.2.2).2.2.1
    have d6 : p6.2.2.g_digest = p5.2.2.g_digest := (produce_priv_key_log P p5.2.1 p5.2.2).2.2.1
    exact d6.trans (d5.trans (d4.trans (d3.trans (d2.trans d1))))
  · show gm.calls = _
    simp only [gm, gl, Globals.record, l6, l5, l4, l3, gk, gj, gi, gh, gg, l2, l1, gf, ge, gd,
      gc, gb, ga, i3, e2c, c1, c2, c3, c4, c7, c8, c9, c14, List.append_assoc]
    rfl

theorem newCalls_of_append (g g' : Globals) (new : List Invocation)
    (h : g'.calls = g.calls ++ new) : newCalls g g' = new := by
  unfold newCalls
  rw [h]
  exact List.drop_left _ _

theorem newCalls_self (g : Globals) : newCalls g g = [] := by
  unfold newCalls
  exact List.drop_length _

/-! ## Construction of the handle -/

theorem dps_hsm_riot_create_ok (P : Provider) (g : Globals) (h : DPS_SECURE_DEVICE_INFO)
    (hc : (dps_hsm_riot_create P g).1 = some h) :
    ∃ c : KeyChain, c.Holds P g.g_CDI (DPS_SECURE_DEVICE_INFO.zero P) ∧ h = c.handle ∧
      g.g_digest_initialized ≠ 0 ∧
      P.malloc_succeeds P.sizeof_DPS_SECURE_DEVICE_INFO = true ∧
      (dps_hsm_riot_create P g).2.calls =
        g.calls ++ c.calls P g.g_CDI (DPS_SECURE_DEVICE_INFO.zero P) ∧
      (dps_hsm_riot_create P g).2.g_digest = c.alias_seed := by
  unfold dps_hsm_riot_create at hc ⊢
  by_cases ha : P.malloc_succeeds P.sizeof_DPS_SECURE_DEVICE_INFO = true
  · rw [if_pos ha] at hc ⊢
    by_cases hr : (process_riot_key_info P (DPS_SECURE_DEVICE_INFO.zero P) g).1 = 0
    · obtain ⟨c, hc1, hc2, hc3, hc4, hc5⟩ := process_riot_key_info_ok P _ g hr
      simp only [hr, ne_eq, not_true_eq_false, ↓reduceIte, Option.some.injEq] at hc ⊢
      exact ⟨c, hc1, by rw [← hc, hc2], hc3, ha, hc5, hc4⟩
    · simp [hr] at hc
  · rw [if_neg ha] at hc
    cases hc

/-- C1: with the system initialised and the handle record allocated,
`dps_hsm_riot_create` returns a handle exactly when every step it invoked on
the way (the hash, the key derivations, every TBS build, signature,
finalisation and text encoding, and the copy of the common name) reported
success; a single reported failure makes the result `NULL`.  When a handle is
returned, the steps invoked are all the steps of `createSteps`, in order. -/
theorem create_all_or_nothing (P : Provider) (g : Globals)
    (hinit : g.g_digest_initialized ≠ 0)
    (halloc : P.malloc_succeeds P.sizeof_DPS_SECURE_DEVICE_INFO = true) :
    ((dps_hsm_riot_create P g).1 ≠ none ↔
      AllSucceeded (newCalls g (dps_hsm_riot_create P g).2)) ∧
    ((dps_hsm_riot_create P g).1 ≠ none →
      (newCalls g (dps_hsm_riot_create P g).2).map (fun i => i.call.name) = createSteps) := by
  constructor
  · obtain ⟨⟨new, hnew, hiff⟩, -, -⟩ :=
      process_riot_key_info_log P (DPS_SECURE_DEVICE_INFO.zero P) g hinit
    unfold dps_hsm_riot_create
    rw [if_pos halloc]
    by_cases hr : (process_riot_key_info P (DPS_SECURE_DEVICE_INFO.zero P) g).1 = 0
    · simp only [hr, ne_eq, not_true_eq_false, ↓reduceIte]
      rw [newCalls_of_append g _ new hnew]
      simpa using hiff.mp hr
    · simp only [hr, ne_eq, not_false_eq_true, ↓reduceIte, not_true_eq_false, false_iff]
      rw [newCalls_of_append g _ new hnew]
      exact fun hall => hr (hiff.mpr hall)
  · intro hne
    obtain ⟨h, hh⟩ := Option.ne_none_iff_exists'.mp hne
    obtain ⟨c, -, -, -, -, hcalls, -⟩ := dps_hsm_riot_create_ok P g h hh
    rw [newCalls_of_append g _ _ hcalls]
    rfl

theorem create_all_or_nothing_witness :
    (demoGlobals.g_digest_initialized ≠ 0 ∧
      demoProvider.malloc_succeeds demoProvider.sizeof_DPS_SECURE_DEVICE_INFO = true) ∧
    ((dps_hsm_riot_create demoProvider demoGlobals).1 ≠ none ↔
      AllSucceeded (newCalls demoGlobals (dps_hsm_riot_create demoProvider demoGlobals).2)) ∧
    ((dps_hsm_riot_create demoProvider demoGlobals).1 ≠ none →
      (newCalls demoGlobals (dps_hsm_riot_create demoProvider demoGlobals).2).map
        (fun i => i.call.name) = createSteps) ∧
    ((dps_hsm_riot_create demoProvider demoGlobals).1 = some demoHandle ∧
      AllSucceeded (newCalls demoGlobals (dps_hsm_riot_create demoProvider demoGlobals).2)) ∧
    ((dps_hsm_riot_create failingProvider demoGlobals).1 = none ∧
      ¬ AllSucceeded (newCalls demoGlobals (dps_hsm_riot_create failingProvider demoGlobals).2)) ∧
    ((dps_hsm_riot_create failingProvider demoGlobals).1 ≠ none ↔
      AllSucceeded (newCalls demoGlobals (dps_hsm_riot_create failingProvider demoGlobals).2)) :=
  ⟨⟨by decide, rfl⟩, (create_all_or_nothing demoProvider demoGlobals (by decide) rfl).1,
    (create_all_or_nothing demoProvider demoGlobals (by decide) rfl).2,
    ⟨by decide, by decide⟩, ⟨by decide, by decide⟩,
    (create_all_or_nothing failingProvider demoGlobals (by decide) rfl).1⟩

/-- C2: while `initialize_riot_system` has not run, `dps_hsm_riot_create`
returns `NULL` whatever the provider does, and leaves the state as it was: no
primitive is invoked (the log is unchanged) and `g_digest` and `g_CDI` keep
their values. -/
theorem create_uninitialized (P : Provider) (g : Globals)
    (h0 : g.g_digest_initialized = 0) :
    dps_hsm_riot_create P g = (none, g) := by
  unfold dps_hsm_riot_create process_riot_key_info
  simp [h0, __FAILURE__]

theorem create_uninitialized_witness :
    Globals.initial.g_digest_initialized = 0 ∧
      dps_hsm_riot_create demoProvider Globals.initial = (none, Globals.initial) :=
  ⟨rfl, create_uninitialized demoProvider Globals.initial rfl⟩

/-! ## The certificates of a handle -/

/-- The root certificate of every handle: the TBS binds the root public key,
and the signature encoded with it was made with the DeviceID private key of
the handle. -/
theorem root_certificate_signing_key (P : Provider) (g : Globals)
    (h : DPS_SECURE_DEVICE_INFO) (hc : (dps_hsm_riot_create P g).1 = some h) :
    ∃ tbs signature cert,
      P.X509GetDeviceCertTBS (freshContext P) X509_ROOT_TBS_DATA eccRootPubBytes = (0, tbs) ∧
      P.RiotCrypt_Sign tbs.Buffer tbs.Position h.device_id_priv = (RIOT_SUCCESS, signature) ∧
      P.X509MakeRootCert tbs signature = (0, cert) ∧
      P.DERtoPEM cert P.CERT_TYPE (zeroed P.DER_MAX_PEM) P.DER_MAX_PEM
        = (0, h.root_ca_pem, h.root_ca_length) := by
  obtain ⟨c, hh, rfl, -, -⟩ := dps_hsm_riot_create_ok P g h hc
  obtain ⟨-, -, -, -, -, -, -, -, -, -, -, -, -, -, -, -, r1, r2, r3, r4, -⟩ := hh
  exact ⟨c.root_tbs, c.root_sig, c.root_cert, r1, r2, r3, r4⟩

/-- C3, evaluated on the demo provider: `dps_hsm_riot_create` succeeds, the
signature in the root certificate is the one made over the root TBS with the
DeviceID private key of the handle, that key is not the root private key,
and the signature the root private key makes over the same TBS is a
different one which is never handed to the root-certificate builder. -/
theorem root_certificate_not_self_signed :
    ∃ h g' tbs,
      dps_hsm_riot_create demoProvider demoGlobals = (some h, g') ∧
      demoProvider.X509GetDeviceCertTBS (freshContext demoProvider) X509_ROOT_TBS_DATA
        eccRootPubBytes = (0, tbs) ∧
      h.root_ca_pem.take h.root_ca_length = tbs.Buffer.take tbs.Position ++
        ((demoProvider.RiotCrypt_Sign tbs.Buffer tbs.Position h.device_id_priv).2).take 2 ∧
      h.device_id_priv ≠ eccRootPrivBytes ∧
      (demoProvider.RiotCrypt_Sign tbs.Buffer tbs.Position h.device_id_priv).2 ≠
        (demoProvider.RiotCrypt_Sign tbs.Buffer tbs.Position eccRootPrivBytes).2 ∧
      (⟨.RiotCrypt_Sign tbs.Buffer tbs.Position h.device_id_priv, 0⟩ : Invocation) ∈ g'.calls ∧
      (∀ i ∈ g'.calls, i.call ≠ .RiotCrypt_Sign tbs.Buffer tbs.Position eccRootPrivBytes) ∧
      (∀ i ∈ g'.calls, i.call ≠ .X509MakeRootCert tbs
        (demoProvider.RiotCrypt_Sign tbs.Buffer tbs.Position eccRootPrivBytes).2) := by
  refine ⟨_, _, _, rfl, rfl, ?_, ?_, ?_, ?_, ?_, ?_⟩ <;> decide

/-- C4: in every successful `dps_hsm_riot_create` the device certificate is
authority-signed: its TBS is built from `X509_DEVICE_TBS_DATA` around the
DeviceID public key stored in the handle, the signature is made over exactly
that TBS with `eccRootPrivBytes`, and the text in `device_signed_pem` encodes
the certificate finalised from that TBS and that signature. -/
theorem device_certificate_authority_signed (P : Provider) (g : Globals)
    (h : DPS_SECURE_DEVICE_INFO) (hc : (dps_hsm_riot_create P g).1 = some h) :
    ∃ tbs signature cert,
      P.X509GetDeviceCertTBS (freshContext P) X509_DEVICE_TBS_DATA h.device_id_pub
        = (0, tbs) ∧
      P.RiotCrypt_Sign tbs.Buffer tbs.Position eccRootPrivBytes = (RIOT_SUCCESS, signature) ∧
      P.X509MakeDeviceCert tbs signature = (0, cert) ∧
      P.DERtoPEM cert P.CERT_TYPE (zeroed P.DER_MAX_PEM) P.DER_MAX_PEM
        = (0, h.device_signed_pem, h.device_signed_length) := by
  obtain ⟨c, hh, rfl, -, -⟩ := dps_hsm_riot_create_ok P g h hc
  obtain ⟨-, -, -, -, -, -, -, -, -, -, -, -, d1, d2, d3, d4, -⟩ := hh
  exact ⟨c.device_tbs, c.device_sig, c.device_cert, d1, d2, d3, d4⟩

/-- C5: in every successful `dps_hsm_riot_create` the TBS of the alias
certificate is built from `X509_ALIAS_TBS_DATA` with the alias public key of
the handle as subject key, its DeviceID public key as issuer key and the
firmware identity; the signature is made over exactly that TBS with the
DeviceID private key of the same handle, and `alias_cert_pem` encodes the
certificate finalised from the two. -/
theorem alias_certificate_device_signed (P : Provider) (g : Globals)
    (h : DPS_SECURE_DEVICE_INFO) (hc : (dps_hsm_riot_create P g).1 = some h) :
    ∃ tbs signature cert,
      P.X509GetAliasCertTBS (freshContext P) X509_ALIAS_TBS_DATA h.alias_key_pub
        h.device_id_pub firmware_id RIOT_DIGEST_LENGTH = (0, tbs) ∧
      P.RiotCrypt_Sign tbs.Buffer tbs.Position h.device_id_priv = (RIOT_SUCCESS, signature) ∧
      P.X509MakeAliasCert tbs signature = (0, cert) ∧
      P.DERtoPEM cert P.CERT_TYPE (zeroed P.DER_MAX_PEM) P.DER_MAX_PEM
        = (0, h.alias_cert_pem, h.alias_cert_length) := by
  obtain ⟨c, hh, rfl, -, -⟩ := dps_hsm_riot_create_ok P g h hc
  obtain ⟨-, -, -, -, -, -, -, -, a1, a2, a3, a4, -⟩ := hh
  exact ⟨c.alias_tbs, c.alias_sig, c.alias_cert, a1, a2, a3, a4⟩

theorem demoHandle_created :
    (dps_hsm_riot_create demoProvider demoGlobals).1 = some demoHandle := by
  decide

theorem device_certificate_authority_signed_witness :
    (dps_hsm_riot_create demoProvider demoGlobals).1 = some demoHandle ∧
      ∃ tbs signature cert,
        demoProvider.X509GetDeviceCertTBS (freshContext demoProvider) X509_DEVICE_TBS_DATA
          demoHandle.device_id_pub = (0, tbs) ∧
        demoProvider.RiotCrypt_Sign tbs.Buffer tbs.Position eccRootPrivBytes
          = (RIOT_SUCCESS, signature) ∧
        demoProvider.X509MakeDeviceCert tbs signature = (0, cert) ∧
        demoProvider.DERtoPEM cert demoProvider.CERT_TYPE (zeroed demoProvider.DER_MAX_PEM)
          demoProvider.DER_MAX_PEM
          = (0, demoHandle.device_signed_pem, demoHandle.device_signed_length) :=
  ⟨by decide,
    device_certificate_authority_signed demoProvider demoGlobals demoHandle (by decide)⟩

theorem alias_certificate_device_signed_witness :
    (dps_hsm_riot_create demoProvider demoGlobals).1 = some demoHandle ∧
      ∃ tbs signature cert,
        demoProvider.X509GetAliasCertTBS (freshContext demoProvider) X509_ALIAS_TBS_DATA
          demoHandle.alias_key_pub demoHandle.device_id_pub firmware_id RIOT_DIGEST_LENGTH
          = (0, tbs) ∧
        demoProvider.RiotCrypt_Sign tbs.Buffer tbs.Position demoHandle.device_id_priv
          = (RIOT_SUCCESS, signature) ∧
        demoProvider.X509MakeAliasCert tbs signature = (0, cert) ∧
        demoProvider.DERtoPEM cert demoProvider.CERT_TYPE (zeroed demoProvider.DER_MAX_PEM)
          demoProvider.DER_MAX_PEM
          = (0, demoHandle.alias_cert_pem, demoHandle.alias_cert_length) :=
  ⟨by decide, alias_certificate_device_signed demoProvider demoGlobals demoHandle (by decide)⟩

/-! ## The leaf request -/

/-- C6, as stated, fails: for the handle of the demo provider and the empty
common name `""` the leaf operation returns a buffer, not `NULL`, after it
invoked the CSR TBS builder, the signing primitive, the CSR finaliser and the
text encoder. -/
theorem leaf_cert_empty_name_is_processed :
    ∃ csr g',
      dps_hsm_riot_create_leaf_cert demoProvider demoLeafLocals (some demoHandle) (some "")
        demoGlobals = (some csr, some demoHandle, g') ∧
      (newCalls demoGlobals g').map (fun i => i.call) =
        [.DERInitContext DERBuilderContext.zero (zeroed 8) 8,
         .X509GetDERCsrTbs (freshContext demoProvider)
            { LEAF_CERT_TBS_DATA with SubjectCommon := some "" } demoLeafLocals.leaf_id_pub,
         .RiotCrypt_Sign [162, 0, 119, 0, 0, 0, 0, 0] 3 demoLeafLocals.leaf_id_priv,
         .X509GetDERCsr
            { Buffer := [162, 0, 119, 0, 0, 0, 0, 0], Length := 8, Position := 3, Nesting := [] }
            [30, 206, 0, 0],
         .DERtoPEM
            { Buffer := [162, 0, 119, 30, 206, 0, 0, 0], Length := 8, Position := 5,
              Nesting := [] }
            0 (zeroed 9) 9] := by
  refine ⟨_, _, rfl, ?_⟩
  decide

/-- C6, amended: the guard of the leaf operation rejects an absent handle and
an absent common name, returning `NULL` with the state and the log as they
were, so that no primitive is invoked; an empty common name passes the guard,
and the CSR TBS builder is invoked with the empty subject common name. -/
theorem leaf_cert_guard (P : Provider) (locals : LeafLocals) (g : Globals) :
    (∀ handle, dps_hsm_riot_create_leaf_cert P locals handle none g = (none, handle, g)) ∧
    (∀ common_name,
      dps_hsm_riot_create_leaf_cert P locals none common_name g = (none, none, g)) ∧
    (∀ h, ∃ status rest,
      newCalls g (dps_hsm_riot_create_leaf_cert P locals (some h) (some "") g).2.2 =
        ⟨.DERInitContext DERBuilderContext.zero (zeroed P.DER_MAX_TBS) P.DER_MAX_TBS, 0⟩ ::
        ⟨.X509GetDERCsrTbs (freshContext P)
            { LEAF_CERT_TBS_DATA with SubjectCommon := some "" } locals.leaf_id_pub, status⟩ ::
        rest) := by
  refine ⟨fun handle => ?_, fun common_name => ?_, fun h => ?_⟩
  · simp [dps_hsm_riot_create_leaf_cert]
  · simp [dps_hsm_riot_create_leaf_cert]
  · unfold dps_hsm_riot_create_leaf_cert freshContext
    simp -zeta only [reduceCtorEq, or_self, ↓reduceIte]
    lift_lets
    intro der_buffer src tbs_data der_ctx g1 t g2 der_ctx2 s g3 tbs_sig m g4 der_ctx3 result e g5
    refine ⟨t.1, ?_⟩
    have hg2 : g2.calls = g.calls ++ [⟨.DERInitContext DERBuilderContext.zero der_buffer
        P.DER_MAX_TBS, 0⟩, ⟨.X509GetDERCsrTbs der_ctx tbs_data locals.leaf_id_pub, t.1⟩] := by
      simp [g2, g1, Globals.record]
    have ext : ∀ (g' : Globals) (c : Call) (st : Int),
        (∃ r, g'.calls = g2.calls ++ r) → ∃ r, (g'.record c st).calls = g2.calls ++ r := by
      rintro g' c st ⟨r, hr⟩
      exact ⟨r ++ [⟨c, st⟩], by simp [Globals.record, hr]⟩
    have fin : ∀ g' : Globals, (∃ r, g'.calls = g2.calls ++ r) →
        ∃ rest, newCalls g g' =
          ⟨.DERInitContext DERBuilderContext.zero der_buffer P.DER_MAX_TBS, 0⟩ ::
          ⟨.X509GetDERCsrTbs der_ctx tbs_data locals.leaf_id_pub, t.1⟩ :: rest := by
      rintro g' ⟨r, hr⟩
      refine ⟨r, newCalls_of_append g g' _ ?_⟩
      rw [hr, hg2]
      simp
    have e2 : ∃ r, g2.calls = g2.calls ++ r := ⟨[], by simp⟩
    have e3 : ∃ r, g3.calls = g2.calls ++ r := ext g2 _ _ e2
    have e4 : ∃ r, g4.calls = g2.calls ++ r := ext g3 _ _ e3
    have e5 : ∃ r, g5.calls = g2.calls ++ r := ext g4 _ _ e4
    split_ifs <;> (try split) <;>
      first | exact fin _ e2 | exact fin _ e3 | exact fin _ e4 | exact fin _ e5

/-- The leaf operation derives no key pair, whatever the provider and the
arguments: no invocation it logs is a key derivation. -/
theorem leaf_cert_derives_no_key (P : Provider) (locals : LeafLocals)
    (handle : Ptr DPS_SECURE_DEVICE_INFO) (common_name : Ptr String) (g : Globals) :
    ∀ i ∈ newCalls g (dps_hsm_riot_create_leaf_cert P locals handle common_name g).2.2,
      i.call.isKeyDerivation = false := by
  unfold dps_hsm_riot_create_leaf_cert
  lift_lets
  intro der_buffer src tbs_data der_ctx g1 t g2 der_ctx2 s g3 tbs_sig m g4 der_ctx3 result e g5
  have ext : ∀ (g' : Globals) (c : Call) (st : Int), c.isKeyDerivation = false →
      (∀ i ∈ newCalls g g', i.call.isKeyDerivation = false) →
      ∀ i ∈ newCalls g (g'.record c st), i.call.isKeyDerivation = false := by
    intro g' c st hc hg' i hi
    unfold newCalls Globals.record at hi
    rw [List.drop_append_eq_append_drop, List.mem_append] at hi
    rcases hi with hi | hi
    · exact hg' i hi
    · have := List.mem_of_mem_drop hi
      simp only [List.mem_singleton] at this
      rw [this]
      exact hc
  have e0 : ∀ i ∈ newCalls g g, i.call.isKeyDerivation = false := by
    rw [newCalls_self]
    intro i hi
    cases hi
  have e1 := ext g (.DERInitContext DERBuilderContext.zero der_buffer P.DER_MAX_TBS) 0 rfl e0
  have e2 := ext g1 (.X509GetDERCsrTbs der_ctx tbs_data locals.leaf_id_pub) t.1 rfl e1
  have e3 := ext g2 (.RiotCrypt_Sign der_ctx2.Buffer der_ctx2.Position locals.leaf_id_priv) s.1
    rfl e2
  have e4 := ext g3 (.X509GetDERCsr der_ctx2 tbs_sig) m.1 rfl e3
  have e5 := ext g4 (.DERtoPEM der_ctx3 P.CERT_TYPE result locals.leaf_len) e.1 rfl e4
  split_ifs <;> (try split) <;>
    first | exact e0 | exact e2 | exact e3 | exact e4 | exact e5

/-- C7, evaluated on the demo provider with the common name `"leaf"`: the
request is built with the supplied subject common name and the handle is left
as it was, but no key pair is derived during the call: the TBS builder is
handed the uninitialised local `leaf_id_pub` and the signing primitive the
uninitialised local `leaf_id_priv`. -/
theorem leaf_cert_key_pair_never_derived :
    ∃ csr g' tbs signature final,
      dps_hsm_riot_create_leaf_cert demoProvider demoLeafLocals (some demoHandle)
        (some "leaf") demoGlobals = (some csr, some demoHandle, g') ∧
      newCalls demoGlobals g' =
        [⟨.DERInitContext DERBuilderContext.zero (zeroed 8) 8, 0⟩,
         ⟨.X509GetDERCsrTbs (freshContext demoProvider)
            { LEAF_CERT_TBS_DATA with SubjectCommon := some "leaf" }
            demoLeafLocals.leaf_id_pub, 0⟩,
         ⟨.RiotCrypt_Sign tbs.Buffer tbs.Position demoLeafLocals.leaf_id_priv, 0⟩,
         ⟨.X509GetDERCsr tbs signature, 0⟩,
         ⟨.DERtoPEM final 0 (zeroed 9) demoLeafLocals.leaf_len, 0⟩] ∧
      (newCalls demoGlobals g').all (fun i => !i.call.isKeyDerivation) = true := by
  refine ⟨_, _, (demoProvider.X509GetDERCsrTbs (freshContext demoProvider)
      { LEAF_CERT_TBS_DATA with SubjectCommon := some "leaf" } demoLeafLocals.leaf_id_pub).2,
    [34, 206, 0, 0],
    { Buffer := [162, 4, 119, 34, 206, 0, 0, 0], Length := 8, Position := 5, Nesting := [] },
    rfl, ?_, ?_⟩ <;> decide

/-! ## The accessors -/

/-- The shared body of the buffer accessors: with the length inside the
buffer and the allocation succeeding, the block handed out is the first `L`
bytes of the text followed by a zero byte. -/
theorem copy_out_eq (P : Provider) (pem : Bytes) (L : Nat) (hw : WithinBuffer pem L)
    (ha : P.malloc_succeeds (L + 1) = true) (x : Ptr DPS_SECURE_DEVICE_INFO) :
    (match malloc P ((L + 1) % 2 ^ 32) with
      | none => some (none, x)
      | some result => do
        let result ← memset result 0 ((L + 1) % 2 ^ 32)
        let result ← memcpy result pem L
        pure (some result, x)) = some (some (pem.take L ++ [0]), x) := by
  obtain ⟨h1, h2⟩ := hw
  rw [Nat.mod_eq_of_lt h2]
  simp [malloc, ha, memset, memcpy, h1, List.drop_replicate]

theorem copiesOut_of_eq (r : Option (Ptr Bytes × Ptr DPS_SECURE_DEVICE_INFO))
    (h : DPS_SECURE_DEVICE_INFO) (pem : Bytes) (L : Nat) (hL : L ≤ pem.length)
    (hr : r = some (some (pem.take L ++ [0]), some h)) : CopiesOut r h pem L := by
  have hlen : (pem.take L).length = L := by simp [hL]
  refine ⟨_, hr, ?_, ?_, ?_⟩
  · simp [hL]
  · rw [List.take_append_of_le_length (by omega), List.take_take]
    simp
  · rw [List.getElem?_append_right (by omega)]
    simp [hlen]

theorem demoOverlay_length (new old : Bytes) : (demoOverlay new old).length = old.length := by
  unfold demoOverlay
  simp only [List.length_take, List.length_append, List.length_drop]
  omega

theorem demoProvider_respects_capacity : EncoderRespectsCapacity demoProvider := by
  intro ctx type pem length
  show (demoDERtoPEM ctx type pem length).1 = 0 → (demoDERtoPEM ctx type pem length).2.2 ≤ length
  unfold demoDERtoPEM
  split_ifs with h
  · exact fun _ => h
  · intro h0
    simp at h0

theorem demoProvider_keeps_buffer : EncoderKeepsBuffer demoProvider := by
  intro ctx type pem length
  show (demoDERtoPEM ctx type pem length).2.1.length = pem.length
  unfold demoDERtoPEM
  split_ifs with h
  · exact demoOverlay_length _ _
  · rfl

theorem fromAllocation_of_eq (A : Provider)
    (r : Option (Ptr Bytes × Ptr DPS_SECURE_DEVICE_INFO)) (pem : Bytes) (L : Nat)
    (hw : WithinBuffer pem L) (ha : A.malloc_succeeds (L + 1) = true)
    (x : Ptr DPS_SECURE_DEVICE_INFO) (hr : r = some (some (pem.take L ++ [0]), x)) :
    FromAllocation A r pem L := by
  refine ⟨List.replicate (L + 1) A.heap_fill, pem.take L ++ [0], ?_, ?_, ?_, ?_⟩
  · simp [malloc, ha]
  · simp
  · simp [memset, memcpy, hw.1, List.drop_replicate]
  · rw [hr]
    rfl

/-- Under the contract of the text encoder (a successful encoding reports a
length within the capacity it was given, and the array it writes into keeps
its size), every length recorded in a handle that `dps_hsm_riot_create`
returns stays inside its text buffer. -/
theorem created_handle_within_buffers (P : Provider) (g : Globals)
    (h : DPS_SECURE_DEVICE_INFO) (hc : (dps_hsm_riot_create P g).1 = some h)
    (hcap : EncoderRespectsCapacity P) (hkeep : EncoderKeepsBuffer P)
    (hsz : P.DER_MAX_PEM + 1 < 2 ^ 32) :
    WithinBuffer h.alias_cert_pem h.alias_cert_length ∧
    WithinBuffer h.alias_priv_key_pem h.alias_key_length ∧
    WithinBuffer h.device_id_public_pem h.device_id_length ∧
    WithinBuffer h.device_signed_pem h.device_signed_length ∧
    WithinBuffer h.root_ca_pem h.root_ca_length ∧
    WithinBuffer h.root_ca_priv_pem h.root_ca_priv_length := by
  obtain ⟨c, hh, rfl, -⟩ := dps_hsm_riot_create_ok P g h hc
  obtain ⟨-, -, -, -, -, p6, -, p8, -, -, -, p12, -, -, -, p16, -, -, -, p20, -, p22, -⟩ := hh
  have zlen : (zeroed P.DER_MAX_PEM).length = P.DER_MAX_PEM := List.length_replicate _ _
  have key : ∀ ctx type pem len, P.DERtoPEM ctx type (zeroed P.DER_MAX_PEM) P.DER_MAX_PEM
      = (0, pem, len) → WithinBuffer pem len := by
    intro ctx type pem len e
    have b := hcap ctx type (zeroed P.DER_MAX_PEM) P.DER_MAX_PEM
    have k := hkeep ctx type (zeroed P.DER_MAX_PEM) P.DER_MAX_PEM
    rw [e] at b k
    replace b : len ≤ P.DER_MAX_PEM := b rfl
    replace k : pem.length = P.DER_MAX_PEM := k.trans zlen
    exact ⟨by omega, by omega⟩
  exact ⟨key _ _ _ _ p12, key _ _ _ _ p8, key _ _ _ _ p6, key _ _ _ _ p16, key _ _ _ _ p20,
    key _ _ _ _ p22⟩

/-- C8: every buffer accessor returns `NULL` for a `NULL` handle.  For a
handle returned by `dps_hsm_riot_create` (the text encoder keeping to its
contract: a successful encoding reports a length within the capacity, the
array keeps its `DER_MAX_PEM` bytes, and `DER_MAX_PEM + 1` fits the 32-bit
length arithmetic), with the allocation succeeding, each accessor returns a
buffer of exactly `L + 1` bytes, `L` being the length recorded in the handle
for that artifact, whose first `L` bytes are the first `L` bytes of the stored
text and whose last byte is zero; the buffer is the block `malloc` handed out,
and the record behind the handle is as it was. -/
theorem accessors_copy_out (A : Provider) :
    (dps_hsm_riot_get_certificate A none = some (none, none) ∧
      dps_hsm_riot_get_alias_key A none = some (none, none) ∧
      dps_hsm_riot_get_device_cert A none = some (none, none) ∧
      dps_hsm_riot_get_signer_cert A none = some (none, none) ∧
      dps_hsm_riot_get_root_cert A none = some (none, none) ∧
      dps_hsm_riot_get_root_key A none = some (none, none)) ∧
    ∀ (P : Provider) (g : Globals) (h : DPS_SECURE_DEVICE_INFO),
      (dps_hsm_riot_create P g).1 = some h →
      EncoderRespectsCapacity P → EncoderKeepsBuffer P → P.DER_MAX_PEM + 1 < 2 ^ 32 →
      (A.malloc_succeeds (h.alias_cert_length + 1) = true →
        CopiesOut (dps_hsm_riot_get_certificate A (some h)) h
          h.alias_cert_pem h.alias_cert_length ∧
        FromAllocation A (dps_hsm_riot_get_certificate A (some h))
          h.alias_cert_pem h.alias_cert_length) ∧
      (A.malloc_succeeds (h.alias_key_length + 1) = true →
        CopiesOut (dps_hsm_riot_get_alias_key A (some h)) h
          h.alias_priv_key_pem h.alias_key_length ∧
        FromAllocation A (dps_hsm_riot_get_alias_key A (some h))
          h.alias_priv_key_pem h.alias_key_length) ∧
      (A.malloc_succeeds (h.device_id_length + 1) = true →
        CopiesOut (dps_hsm_riot_get_device_cert A (some h)) h
          h.device_id_public_pem h.device_id_length ∧
        FromAllocation A (dps_hsm_riot_get_device_cert A (some h))
          h.device_id_public_pem h.device_id_length) ∧
      (A.malloc_succeeds (h.device_signed_length + 1) = true →
        CopiesOut (dps_hsm_riot_get_signer_cert A (some h)) h
          h.device_signed_pem h.device_signed_length ∧
        FromAllocation A (dps_hsm_riot_get_signer_cert A (some h))
          h.device_signed_pem h.device_signed_length) ∧
      (A.malloc_succeeds (h.root_ca_length + 1) = true →
        CopiesOut (dps_hsm_riot_get_root_cert A (some h)) h
          h.root_ca_pem h.root_ca_length ∧
        FromAllocation A (dps_hsm_riot_get_root_cert A (some h))
          h.root_ca_pem h.root_ca_length) ∧
      (A.malloc_succeeds (h.root_ca_priv_length + 1) = true →
        CopiesOut (dps_hsm_riot_get_root_key A (some h)) h
          h.root_ca_priv_pem h.root_ca_priv_length ∧
        FromAllocation A (dps_hsm_riot_get_root_key A (some h))
          h.root_ca_priv_pem h.root_ca_priv_length) := by
  refine ⟨⟨rfl, rfl, rfl, rfl, rfl, rfl⟩, fun P g h hc hcap hkeep hsz => ?_⟩
  obtain ⟨w1, w2, w3, w4, w5, w6⟩ := created_handle_within_buffers P g h hc hcap hkeep hsz
  refine ⟨?_, ?_, ?_, ?_, ?_, ?_⟩
  · exact fun ha => ⟨copiesOut_of_eq _ h _ _ w1.1 (copy_out_eq A _ _ w1 ha _),
      fromAllocation_of_eq A _ _ _ w1 ha _ (copy_out_eq A _ _ w1 ha _)⟩
  · exact fun ha => ⟨copiesOut_of_eq _ h _ _ w2.1 (copy_out_eq A _ _ w2 ha _),
      fromAllocation_of_eq A _ _ _ w2 ha _ (copy_out_eq A _ _ w2 ha _)⟩
  · exact fun ha => ⟨copiesOut_of_eq _ h _ _ w3.1 (copy_out_eq A _ _ w3 ha _),
      fromAllocation_of_eq A _ _ _ w3 ha _ (copy_out_eq A _ _ w3 ha _)⟩
  · exact fun ha => ⟨copiesOut_of_eq _ h _ _ w4.1 (copy_out_eq A _ _ w4 ha _),
      fromAllocation_of_eq A _ _ _ w4 ha _ (copy_out_eq A _ _ w4 ha _)⟩
  · exact fun ha => ⟨copiesOut_of_eq _ h _ _ w5.1 (copy_out_eq A _ _ w5 ha _),
      fromAllocation_of_eq A _ _ _ w5 ha _ (copy_out_eq A _ _ w5 ha _)⟩
  · exact fun ha => ⟨copiesOut_of_eq _ h _ _ w6.1 (copy_out_eq A _ _ w6 ha _),
      fromAllocation_of_eq A _ _ _ w6 ha _ (copy_out_eq A _ _ w6 ha _)⟩

theorem accessors_copy_out_witness :
    ((dps_hsm_riot_create demoProvider demoGlobals).1 = some demoHandle ∧
      EncoderRespectsCapacity demoProvider ∧ EncoderKeepsBuffer demoProvider ∧
      demoProvider.DER_MAX_PEM + 1 < 2 ^ 32 ∧
      demoProvider.malloc_succeeds (demoHandle.alias_cert_length + 1) = true ∧
      demoProvider.malloc_succeeds (demoHandle.root_ca_priv_length + 1) = true) ∧
    (CopiesOut (dps_hsm_riot_get_certificate demoProvider (some demoHandle)) demoHandle
        demoHandle.alias_cert_pem demoHandle.alias_cert_length ∧
      FromAllocation demoProvider (dps_hsm_riot_get_certificate demoProvider (some demoHandle))
        demoHandle.alias_cert_pem demoHandle.alias_cert_length) ∧
    (CopiesOut (dps_hsm_riot_get_root_key demoProvider (some demoHandle)) demoHandle
        demoHandle.root_ca_priv_pem demoHandle.root_ca_priv_length ∧
      FromAllocation demoProvider (dps_hsm_riot_get_root_key demoProvider (some demoHandle))
        demoHandle.root_ca_priv_pem demoHandle.root_ca_priv_length) :=
  ⟨⟨by decide, demoProvider_respects_capacity, demoProvider_keeps_buffer, by decide, rfl, rfl⟩,
    ((accessors_copy_out demoProvider).2 demoProvider demoGlobals demoHandle (by decide)
      demoProvider_respects_capacity demoProvider_keeps_buffer (by decide)).1 rfl,
    ((accessors_copy_out demoProvider).2 demoProvider demoGlobals demoHandle (by decide)
      demoProvider_respects_capacity demoProvider_keeps_buffer (by decide)).2.2.2.2.2 rfl⟩

/-- What `dps_hsm_riot_get_device_cert` returns for every handle of a
successful `dps_hsm_riot_create` (the encoder keeping to its contract, the
allocation succeeding): the terminated text of the DeviceID public key, which
`produce_device_id_public` obtained by encoding, with `PUBLICKEY_TYPE`, the
public key stored in the handle. -/
theorem get_device_cert_returns_public_key (P : Provider) (g : Globals)
    (h : DPS_SECURE_DEVICE_INFO) (hc : (dps_hsm_riot_create P g).1 = some h)
    (hcap : EncoderRespectsCapacity P) (hkeep : EncoderKeepsBuffer P)
    (hsz : P.DER_MAX_PEM + 1 < 2 ^ 32)
    (A : Provider) (ha : A.malloc_succeeds (h.device_id_length + 1) = true) :
    ∃ der,
      P.X509GetDEREccPub (freshContext P) h.device_id_pub = (0, der) ∧
      P.DERtoPEM der P.PUBLICKEY_TYPE (zeroed P.DER_MAX_PEM) P.DER_MAX_PEM
        = (0, h.device_id_public_pem, h.device_id_length) ∧
      dps_hsm_riot_get_device_cert A (some h)
        = some (some (h.device_id_public_pem.take h.device_id_length ++ [0]), some h) := by
  obtain ⟨-, -, w3, -⟩ := created_handle_within_buffers P g h hc hcap hkeep hsz
  obtain ⟨c, hh, rfl, -, -⟩ := dps_hsm_riot_create_ok P g h hc
  obtain ⟨-, -, -, -, p1, p2, -⟩ := hh
  exact ⟨c.device_id_der, p1, p2, copy_out_eq A _ _ w3 ha _⟩

/-- Where the device certificate of a handle goes: for every handle of a
successful `dps_hsm_riot_create` (the encoder keeping to its contract, the
allocation succeeding) the terminated text of the authority-signed device
certificate, which `produce_device_cert` encoded with `CERT_TYPE`, is what
`dps_hsm_riot_get_signer_cert` returns. -/
theorem get_signer_cert_returns_device_cert (P : Provider) (g : Globals)
    (h : DPS_SECURE_DEVICE_INFO) (hc : (dps_hsm_riot_create P g).1 = some h)
    (hcap : EncoderRespectsCapacity P) (hkeep : EncoderKeepsBuffer P)
    (hsz : P.DER_MAX_PEM + 1 < 2 ^ 32)
    (A : Provider) (ha : A.malloc_succeeds (h.device_signed_length + 1) = true) :
    ∃ tbs signature cert,
      P.X509GetDeviceCertTBS (freshContext P) X509_DEVICE_TBS_DATA h.device_id_pub
        = (0, tbs) ∧
      P.RiotCrypt_Sign tbs.Buffer tbs.Position eccRootPrivBytes = (RIOT_SUCCESS, signature) ∧
      P.X509MakeDeviceCert tbs signature = (0, cert) ∧
      P.DERtoPEM cert P.CERT_TYPE (zeroed P.DER_MAX_PEM) P.DER_MAX_PEM
        = (0, h.device_signed_pem, h.device_signed_length) ∧
      dps_hsm_riot_get_signer_cert A (some h)
        = some (some (h.device_signed_pem.take h.device_signed_length ++ [0]), some h) := by
  obtain ⟨-, -, -, w4, -⟩ := created_handle_within_buffers P g h hc hcap hkeep hsz
  obtain ⟨c, hh, rfl, -, -⟩ := dps_hsm_riot_create_ok P g h hc
  obtain ⟨-, -, -, -, -, -, -, -, -, -, -, -, d1, d2, d3, d4, -⟩ := hh
  exact ⟨c.device_tbs, c.device_sig, c.device_cert, d1, d2, d3, d4, copy_out_eq A _ _ w4 ha _⟩

/-- C9, evaluated on the demo provider: `dps_hsm_riot_create` succeeds, and
`dps_hsm_riot_get_device_cert` returns the terminated text of the DeviceID
public key (`device_id_public_pem`, encoded with `PUBLICKEY_TYPE`), not the
text of the authority-signed device certificate that `produce_device_cert`
stored in `device_signed_pem`; that text is returned by
`dps_hsm_riot_get_signer_cert` instead. -/
theorem get_device_cert_is_not_the_certificate :
    (dps_hsm_riot_create demoProvider demoGlobals).1 = some demoHandle ∧
    dps_hsm_riot_get_device_cert demoProvider (some demoHandle)
      = some (some [48, 217, 0], some demoHandle) ∧
    demoHandle.device_id_public_pem.take demoHandle.device_id_length = [48, 217] ∧
    demoHandle.device_signed_pem.take demoHandle.device_signed_length
      = [160, 60, 217, 186, 112] ∧
    dps_hsm_riot_get_signer_cert demoProvider (some demoHandle)
      = some (some [160, 60, 217, 186, 112, 0], some demoHandle) ∧
    dps_hsm_riot_get_device_cert demoProvider (some demoHandle)
      ≠ some (some (demoHandle.device_signed_pem.take demoHandle.device_signed_length ++ [0]),
          some demoHandle) := by
  decide

/-- C10: for every handle returned by a successful `dps_hsm_riot_create`,
`dps_hsm_riot_get_common_name` returns, with the allocation succeeding, a
string equal to the subject common name of `X509_ALIAS_TBS_DATA`, that is
`RIOT_COMMON_NAME`, `"riot-device-cert"`, and leaves the record behind the
handle as it was. -/
theorem get_common_name_of_created (P : Provider) (g : Globals)
    (h : DPS_SECURE_DEVICE_INFO) (hc : (dps_hsm_riot_create P g).1 = some h)
    (A : Provider) (ha : A.malloc_succeeds (strlen RIOT_COMMON_NAME + 1) = true) :
    dps_hsm_riot_get_common_name A (some h) = (some "riot-device-cert", some h) ∧
      X509_ALIAS_TBS_DATA.SubjectCommon = some "riot-device-cert" ∧
      RIOT_COMMON_NAME = "riot-device-cert" := by
  obtain ⟨c, -, rfl, -, -⟩ := dps_hsm_riot_create_ok P g h hc
  refine ⟨?_, rfl, rfl⟩
  simp only [dps_hsm_riot_get_common_name, KeyChain.handle, mallocAndStrcpy_s, ha]
  rfl

theorem get_common_name_of_created_witness :
    ((dps_hsm_riot_create demoProvider demoGlobals).1 = some demoHandle ∧
      demoProvider.malloc_succeeds (strlen RIOT_COMMON_NAME + 1) = true) ∧
    dps_hsm_riot_get_common_name demoProvider (some demoHandle)
      = (some "riot-device-cert", some demoHandle) ∧
    X509_ALIAS_TBS_DATA.SubjectCommon = some "riot-device-cert" ∧
    RIOT_COMMON_NAME = "riot-device-cert" :=
  ⟨⟨by decide, rfl⟩,
    get_common_name_of_created demoProvider demoGlobals demoHandle (by decide) demoProvider rfl⟩

/-! ## Initialisation and the composite identifier -/

theorem initialize_riot_system_again (P : Provider) (g : Globals)
    (h : g.g_digest_initialized ≠ 0) : initialize_riot_system P g = (0, g) := by
  unfold initialize_riot_system
  rw [if_neg h]

theorem initialize_riot_system_sets_flag (P : Provider) (g : Globals) :
    (initialize_riot_system P g).2.g_digest_initialized ≠ 0 := by
  unfold initialize_riot_system
  by_cases h : g.g_digest_initialized = 0
  · rw [if_pos h]
    simp [Globals.record]
  · rw [if_neg h]
    exact h

theorem dps_hsm_riot_create_keeps (P : Provider) (g : Globals) :
    (dps_hsm_riot_create P g).2.g_CDI = g.g_CDI ∧
      (dps_hsm_riot_create P g).2.g_digest_initialized = g.g_digest_initialized := by
  by_cases h0 : g.g_digest_initialized = 0
  · unfold dps_hsm_riot_create process_riot_key_info
    simp [h0, __FAILURE__]
  · obtain ⟨-, hf, hd⟩ := process_riot_key_info_log P (DPS_SECURE_DEVICE_INFO.zero P) g h0
    unfold dps_hsm_riot_create
    by_cases ha : P.malloc_succeeds P.sizeof_DPS_SECURE_DEVICE_INFO = true
    · rw [if_pos ha]
      by_cases hr : (process_riot_key_info P (DPS_SECURE_DEVICE_INFO.zero P) g).1 = 0
      · simp only [hr, ne_eq, not_true_eq_false, ↓reduceIte]
        exact ⟨hd, hf⟩
      · simp only [hr, ne_eq, not_false_eq_true, ↓reduceIte]
        exact ⟨hd, hf⟩
    · rw [if_neg ha]
      exact ⟨rfl, rfl⟩

theorem dps_hsm_riot_create_leaf_cert_keeps (P : Provider) (locals : LeafLocals)
    (handle : Ptr DPS_SECURE_DEVICE_INFO) (common_name : Ptr String) (g : Globals) :
    SameGlobals g (dps_hsm_riot_create_leaf_cert P locals handle common_name g).2.2 := by
  unfold dps_hsm_riot_create_leaf_cert SameGlobals
  lift_lets
  intro der_buffer src tbs_data der_ctx g1 t g2 der_ctx2 s g3 tbs_sig m g4 der_ctx3 result e g5
  split_ifs <;> (try split) <;> exact ⟨rfl, rfl, rfl⟩

theorem Operation.run_keeps (P : Provider) (op : Operation) (g : Globals)
    (h : g.g_digest_initialized ≠ 0) :
    (op.run P g).g_CDI = g.g_CDI ∧ (op.run P g).g_digest_initialized ≠ 0 := by
  cases op with
  | initialize_riot_system =>
    have e : Operation.run P .initialize_riot_system g = g := by
      simp only [Operation.run, initialize_riot_system_again P g h]
    rw [e]
    exact ⟨rfl, h⟩
  | deinitialize_riot_system => exact ⟨rfl, h⟩
  | dps_hsm_riot_create =>
    obtain ⟨hd, hf⟩ := dps_hsm_riot_create_keeps P g
    exact ⟨hd, by simp only [Operation.run]; rw [hf]; exact h⟩
  | dps_hsm_riot_create_leaf_cert locals handle common_name =>
    obtain ⟨hf, -, hd⟩ := dps_hsm_riot_create_leaf_cert_keeps P locals handle common_name g
    exact ⟨hd, by simp only [Operation.run]; rw [hf]; exact h⟩
  | handle_only => exact ⟨rfl, h⟩

theorem runAll_keeps (ops : List (Provider × Operation)) (g : Globals)
    (h : g.g_digest_initialized ≠ 0) :
    (runAll ops g).g_CDI = g.g_CDI ∧ (runAll ops g).g_digest_initialized ≠ 0 := by
  induction ops generalizing g with
  | nil => exact ⟨rfl, h⟩
  | cons x rest ih =>
    obtain ⟨P, op⟩ := x
    obtain ⟨h1, h2⟩ := Operation.run_keeps P op g h
    obtain ⟨h3, h4⟩ := ih (op.run P g) h2
    exact ⟨by simp only [runAll]; rw [h3, h1], by simpa only [runAll] using h4⟩

/-- C11: once `initialize_riot_system` has run, a further
`initialize_riot_system` returns with the state as it was (no hash is
invoked; `g_CDI`, `g_digest` and the flag are unchanged),
`dps_hsm_riot_create` leaves `g_CDI` unchanged, and after any sequence of
operations of the module `g_CDI` is still the same and a further
`initialize_riot_system` still changes nothing. -/
theorem first_call_wins (P₀ : Provider) (g₀ : Globals) :
    (∀ P, initialize_riot_system P (initialize_riot_system P₀ g₀).2
        = (0, (initialize_riot_system P₀ g₀).2)) ∧
    (∀ P, (dps_hsm_riot_create P (initialize_riot_system P₀ g₀).2).2.g_CDI
        = (initialize_riot_system P₀ g₀).2.g_CDI) ∧
    (∀ ops : List (Provider × Operation),
      (runAll ops (initialize_riot_system P₀ g₀).2).g_CDI
        = (initialize_riot_system P₀ g₀).2.g_CDI ∧
      ∀ P, initialize_riot_system P (runAll ops (initialize_riot_system P₀ g₀).2)
        = (0, runAll ops (initialize_riot_system P₀ g₀).2)) := by
  have h := initialize_riot_system_sets_flag P₀ g₀
  refine ⟨fun P => initialize_riot_system_again P _ h,
    fun P => (dps_hsm_riot_create_keeps P _).1, fun ops => ?_⟩
  obtain ⟨h1, h2⟩ := runAll_keeps ops _ h
  exact ⟨h1, fun P => initialize_riot_system_again P _ h2⟩

/-- C12: the first `initialize_riot_system` call, made while the flag is
clear, stores in `g_CDI` the two-input digest of the digest of `g_uds_seed`
and of `RAMDOM_DIGEST`, both of 32 bytes, whatever `g_CDI` held before; it
leaves the digest of the seed in `g_digest`, sets the flag and returns 0. -/
theorem initialize_riot_system_first (P : Provider) (g : Globals)
    (h0 : g.g_digest_initialized = 0) :
    (initialize_riot_system P g).2.g_CDI =
      P.DiceSHA256_2 (P.DiceSHA256 g_uds_seed DICE_UDS_LENGTH) DICE_DIGEST_LENGTH
        RAMDOM_DIGEST DICE_DIGEST_LENGTH ∧
    (initialize_riot_system P g).2.g_digest_initialized = 1 ∧
    (initialize_riot_system P g).2.g_digest = P.DiceSHA256 g_uds_seed DICE_UDS_LENGTH ∧
    (initialize_riot_system P g).1 = 0 ∧
    newCalls g (initialize_riot_system P g).2 =
      [⟨.DiceSHA256 g_uds_seed DICE_UDS_LENGTH, 0⟩,
       ⟨.DiceSHA256_2 (P.DiceSHA256 g_uds_seed DICE_UDS_LENGTH) DICE_DIGEST_LENGTH
          RAMDOM_DIGEST DICE_DIGEST_LENGTH, 0⟩] ∧
    g_uds_seed.length = 32 ∧ DICE_UDS_LENGTH = 32 ∧
    RAMDOM_DIGEST.length = 32 ∧ DICE_DIGEST_LENGTH = 32 := by
  unfold initialize_riot_system
  rw [if_pos h0]
  refine ⟨rfl, rfl, rfl, rfl, ?_, rfl, rfl, rfl, rfl⟩
  apply newCalls_of_append
  simp [Globals.record]

theorem initialize_riot_system_first_witness :
    Globals.initial.g_digest_initialized = 0 ∧
    (initialize_riot_system demoProvider Globals.initial).2.g_CDI =
      demoProvider.DiceSHA256_2 (demoProvider.DiceSHA256 g_uds_seed DICE_UDS_LENGTH)
        DICE_DIGEST_LENGTH RAMDOM_DIGEST DICE_DIGEST_LENGTH ∧
    (initialize_riot_system demoProvider Globals.initial).2.g_digest_initialized = 1 ∧
    (initialize_riot_system demoProvider Globals.initial).2.g_digest
      = demoProvider.DiceSHA256 g_uds_seed DICE_UDS_LENGTH ∧
    (initialize_riot_system demoProvider Globals.initial).1 = 0 ∧
    newCalls Globals.initial (initialize_riot_system demoProvider Globals.initial).2 =
      [⟨.DiceSHA256 g_uds_seed DICE_UDS_LENGTH, 0⟩,
       ⟨.DiceSHA256_2 (demoProvider.DiceSHA256 g_uds_seed DICE_UDS_LENGTH) DICE_DIGEST_LENGTH
          RAMDOM_DIGEST DICE_DIGEST_LENGTH, 0⟩] ∧
    g_uds_seed.length = 32 ∧ DICE_UDS_LENGTH = 32 ∧
    RAMDOM_DIGEST.length = 32 ∧ DICE_DIGEST_LENGTH = 32 :=
  ⟨rfl, initialize_riot_system_first demoProvider Globals.initial rfl⟩

/-! ## Determinism -/

/-- The values of a key chain are determined by the provider, the composite
identifier and the record the text buffers are written into. -/
theorem KeyChain.Holds_unique (c c' : KeyChain) (P : Provider) (cdi : Bytes)
    (info : DPS_SECURE_DEVICE_INFO) (h : c.Holds P cdi info) (h' : c'.Holds P cdi info) :
    c = c' := by
  obtain ⟨a1, a2, a3, a4, a5, a6, a7, a8, a9, a10, a11, a12, a13, a14, a15, a16, a17, a18,
    a19, a20, a21, a22, -⟩ := h
  obtain ⟨b1, b2, b3, b4, b5, b6, b7, b8, b9, b10, b11, b12, b13, b14, b15, b16, b17, b18,
    b19, b20, b21, b22, -⟩ := h'
  cases c
  cases c'
  simp only at a1 a2 a3 a4 a5 a6 a7 a8 a9 a10 a11 a12 a13 a14 a15 a16 a17 a18 a19 a20 a21 a22
  simp only at b1 b2 b3 b4 b5 b6 b7 b8 b9 b10 b11 b12 b13 b14 b15 b16 b17 b18 b19 b20 b21 b22
  have e1 := a1.symm.trans b1
  simp only [Prod.mk.injEq, true_and] at e1
  subst e1
  have e2 := a2.symm.trans b2
  simp only [Prod.mk.injEq, true_and] at e2
  obtain ⟨rfl, rfl⟩ := e2
  have e3 := a3.symm.trans b3
  simp only [Prod.mk.injEq, true_and] at e3
  subst e3
  have e4 := a4.symm.trans b4
  simp only [Prod.mk.injEq, true_and] at e4
  obtain ⟨rfl, rfl⟩ := e4
  have e5 := a5.symm.trans b5
  simp only [Prod.mk.injEq, true_and] at e5
  subst e5
  have e6 := a6.symm.trans b6
  simp only [Prod.mk.injEq, true_and] at e6
  obtain ⟨rfl, rfl⟩ := e6
  have e7 := a7.symm.trans b7
  simp only [Prod.mk.injEq, true_and] at e7
  subst e7
  have e8 := a8.symm.trans b8
  simp only [Prod.mk.injEq, true_and] at e8
  obtain ⟨rfl, rfl⟩ := e8
  have e9 := a9.symm.trans b9
  simp only [Prod.mk.injEq, true_and] at e9
  subst e9
  have e10 := a10.symm.trans b10
  simp only [Prod.mk.injEq, true_and] at e10
  subst e10
  have e11 := a11.symm.trans b11
  simp only [Prod.mk.injEq, true_and] at e11
  subst e11
  have e12 := a12.symm.trans b12
  simp only [Prod.mk.injEq, true_and] at e12
  obtain ⟨rfl, rfl⟩ := e12
  have e13 := a13.symm.trans b13
  simp only [Prod.mk.injEq, true_and] at e13
  subst e13
  have e14 := a14.symm.trans b14
  simp only [Prod.mk.injEq, true_and] at e14
  subst e14
  have e15 := a15.symm.trans b15
  simp only [Prod.mk.injEq, true_and] at e15
  subst e15
  have e16 := a16.symm.trans b16
  simp only [Prod.mk.injEq, true_and] at e16
  obtain ⟨rfl, rfl⟩ := e16
  have e17 := a17.symm.trans b17
  simp only [Prod.mk.injEq, true_and] at e17
  subst e17
  have e18 := a18.symm.trans b18
  simp only [Prod.mk.injEq, true_and] at e18
  subst e18
  have e19 := a19.symm.trans b19
  simp only [Prod.mk.injEq, true_and] at e19
  subst e19
  have e20 := a20.symm.trans b20
  simp only [Prod.mk.injEq, true_and] at e20
  obtain ⟨rfl, rfl⟩ := e20
  have e21 := a21.symm.trans b21
  simp only [Prod.mk.injEq, true_and] at e21
  subst e21
  have e22 := a22.symm.trans b22
  simp only [Prod.mk.injEq, true_and] at e22
  obtain ⟨rfl, rfl⟩ := e22
  rfl

/-- Two successful constructions that start from the same composite
identifier return the same handle record. -/
theorem dps_hsm_riot_create_determined (P : Provider) (g g' : Globals)
    (h h' : DPS_SECURE_DEVICE_INFO) (hcdi : g'.g_CDI = g.g_CDI)
    (hc : (dps_hsm_riot_create P g).1 = some h)
    (hc' : (dps_hsm_riot_create P g').1 = some h') : h = h' := by
  obtain ⟨c, hh, rfl, -⟩ := dps_hsm_riot_create_ok P g h hc
  obtain ⟨c', hh', rfl, -⟩ := dps_hsm_riot_create_ok P g' h' hc'
  rw [hcdi] at hh'
  rw [KeyChain.Holds_unique c c' P _ _ hh hh']

/-- C13: the provider being a collection of functions of their inputs, a
successful `dps_hsm_riot_create` made in the state a first successful one left
behind (with `g_digest` overwritten by the alias seed) returns the same handle
record: both key pairs and all six texts with their lengths are identical;
the same holds for two successful calls made in any two states reached from
the initialised state by operations of the module. -/
theorem create_is_deterministic (P : Provider) (g : Globals)
    (h₁ h₂ : DPS_SECURE_DEVICE_INFO)
    (hc₁ : (dps_hsm_riot_create P g).1 = some h₁)
    (hc₂ : (dps_hsm_riot_create P (dps_hsm_riot_create P g).2).1 = some h₂) :
    (h₁ = h₂ ∧
      h₁.device_id_pub = h₂.device_id_pub ∧ h₁.device_id_priv = h₂.device_id_priv ∧
      h₁.alias_key_pub = h₂.alias_key_pub ∧ h₁.alias_key_priv = h₂.alias_key_priv ∧
      (h₁.device_id_public_pem, h₁.device_id_length)
        = (h₂.device_id_public_pem, h₂.device_id_length) ∧
      (h₁.device_signed_pem, h₁.device_signed_length)
        = (h₂.device_signed_pem, h₂.device_signed_length) ∧
      (h₁.alias_priv_key_pem, h₁.alias_key_length)
        = (h₂.alias_priv_key_pem, h₂.alias_key_length) ∧
      (h₁.alias_cert_pem, h₁.alias_cert_length)
        = (h₂.alias_cert_pem, h₂.alias_cert_length) ∧
      (h₁.root_ca_pem, h₁.root_ca_length) = (h₂.root_ca_pem, h₂.root_ca_length) ∧
      (h₁.root_ca_priv_pem, h₁.root_ca_priv_length)
        = (h₂.root_ca_priv_pem, h₂.root_ca_priv_length)) ∧
    (∃ seed, (P.RiotCrypt_Hash2 DICE_DIGEST_LENGTH
        (P.RiotCrypt_Hash RIOT_DIGEST_LENGTH g.g_CDI DICE_DIGEST_LENGTH).2 DICE_DIGEST_LENGTH
        firmware_id RIOT_DIGEST_LENGTH).2 = seed ∧
      (dps_hsm_riot_create P g).2.g_digest = seed) ∧
    (∀ (ops ops' : List (Provider × Operation)) (k k' : DPS_SECURE_DEVICE_INFO),
      (dps_hsm_riot_create P (runAll ops g)).1 = some k →
      (dps_hsm_riot_create P (runAll ops' g)).1 = some k' → k = k') := by
  have e : h₁ = h₂ :=
    dps_hsm_riot_create_determined P g _ h₁ h₂ (dps_hsm_riot_create_keeps P g).1 hc₁ hc₂
  obtain ⟨c, hh, -, hinit, -, -, hdig⟩ := dps_hsm_riot_create_ok P g h₁ hc₁
  refine ⟨?_, ?_, ?_⟩
  · subst e
    exact ⟨rfl, rfl, rfl, rfl, rfl, rfl, rfl, rfl, rfl, rfl, rfl⟩
  · refine ⟨_, rfl, ?_⟩
    obtain ⟨q1, -, q3, -⟩ := hh
    rw [hdig, q1, q3]
  · intro ops ops' k k' hk hk'
    have e1 := (runAll_keeps ops g hinit).1
    have e2 := (runAll_keeps ops' g hinit).1
    exact dps_hsm_riot_create_determined P _ _ k k' (e2.trans e1.symm) hk hk'

theorem create_is_deterministic_witness :
    ((dps_hsm_riot_create demoProvider demoGlobals).1 = some demoHandle ∧
      (dps_hsm_riot_create demoProvider (dps_hsm_riot_create demoProvider demoGlobals).2).1
        = some demoHandle ∧
      (dps_hsm_riot_create demoProvider demoGlobals).2.g_digest ≠ demoGlobals.g_digest) ∧
    demoHandle = demoHandle :=
  ⟨⟨by decide, by decide, by decide⟩,
    (create_is_deterministic demoProvider demoGlobals demoHandle demoHandle (by decide)
      (by decide)).1.1⟩

/-! ## The certificate-signing-request mode -/

/-- The status `produce_device_cert` returns in the request mode, in terms of
what the primitives report: the line of the first test that fires, the test
on the signing primitive firing when it reports `RIOT_SUCCESS`; and zero when
the TBS build succeeds, the signing does not, and the request finalisation
(on the signature buffer as the failed signing left it) and the text encoding
succeed. -/
theorem produce_device_cert_csr_status (P : Provider) (riot_info : DPS_SECURE_DEVICE_INFO)
    (tbs_sig : RIOT_ECC_SIGNATURE) (g : Globals) :
    (produce_device_cert P riot_info tbs_sig .type_riot_csr g).1 =
      if (P.X509GetDERCsrTbs (freshContext P) X509_ALIAS_TBS_DATA
          riot_info.device_id_pub).1 ≠ 0 then __FAILURE__ 280
      else if (P.RiotCrypt_Sign
          (P.X509GetDERCsrTbs (freshContext P) X509_ALIAS_TBS_DATA
            riot_info.device_id_pub).2.Buffer
          (P.X509GetDERCsrTbs (freshContext P) X509_ALIAS_TBS_DATA
            riot_info.device_id_pub).2.Position
          riot_info.device_id_priv).1 = RIOT_SUCCESS then __FAILURE__ 286
      else if (P.X509GetDERCsr
          (P.X509GetDERCsrTbs (freshContext P) X509_ALIAS_TBS_DATA riot_info.device_id_pub).2
          (P.RiotCrypt_Sign_leaves tbs_sig
            (P.X509GetDERCsrTbs (freshContext P) X509_ALIAS_TBS_DATA
              riot_info.device_id_pub).2.Buffer
            (P.X509GetDERCsrTbs (freshContext P) X509_ALIAS_TBS_DATA
              riot_info.device_id_pub).2.Position
            riot_info.device_id_priv)).1 ≠ 0 then __FAILURE__ 292
      else if (P.DERtoPEM
          (P.X509GetDERCsr
            (P.X509GetDERCsrTbs (freshContext P) X509_ALIAS_TBS_DATA riot_info.device_id_pub).2
            (P.RiotCrypt_Sign_leaves tbs_sig
              (P.X509GetDERCsrTbs (freshContext P) X509_ALIAS_TBS_DATA
                riot_info.device_id_pub).2.Buffer
              (P.X509GetDERCsrTbs (freshContext P) X509_ALIAS_TBS_DATA
                riot_info.device_id_pub).2.Position
              riot_info.device_id_priv)).2
          P.CERT_TYPE riot_info.device_signed_pem P.DER_MAX_PEM).1 ≠ 0 then __FAILURE__ 331
      else 0 := by
  simp only [produce_device_cert, freshContext, reduceCtorEq, ↓reduceIte]
  split_ifs <;> simp_all [__FAILURE__, RIOT_SUCCESS]

/-- In the request mode a signing primitive that reports success makes
`produce_device_cert` fail, whatever the handle holds and whatever the other
primitives report. -/
theorem produce_device_cert_csr_fails_on_signed (P : Provider)
    (riot_info : DPS_SECURE_DEVICE_INFO) (tbs_sig : RIOT_ECC_SIGNATURE) (g : Globals)
    (hs : (P.RiotCrypt_Sign
        (P.X509GetDERCsrTbs (freshContext P) X509_ALIAS_TBS_DATA
          riot_info.device_id_pub).2.Buffer
        (P.X509GetDERCsrTbs (freshContext P) X509_ALIAS_TBS_DATA
          riot_info.device_id_pub).2.Position
        riot_info.device_id_priv).1 = RIOT_SUCCESS) :
    (produce_device_cert P riot_info tbs_sig .type_riot_csr g).1 ≠ 0 := by
  rw [produce_device_cert_csr_status, if_pos hs]
  split_ifs <;> simp [__FAILURE__]

/-- The key pairs of the demo handle are not the ones derived from the
composite identifier itself, nor from its combination with the firmware
identifier. -/
theorem key_pairs_not_derived_from_cdi :
    (dps_hsm_riot_create demoProvider demoGlobals).1 = some demoHandle ∧
    (demoHandle.device_id_pub, demoHandle.device_id_priv) ≠
      (demoProvider.RiotCrypt_DeriveEccKey demoGlobals.g_CDI DICE_DIGEST_LENGTH
        demoProvider.RIOT_LABEL_IDENTITY (lblSize demoProvider.RIOT_LABEL_IDENTITY)).2 ∧
    (demoHandle.alias_key_pub, demoHandle.alias_key_priv) ≠
      (demoProvider.RiotCrypt_DeriveEccKey
        (demoProvider.RiotCrypt_Hash2 DICE_DIGEST_LENGTH demoGlobals.g_CDI DICE_DIGEST_LENGTH
          firmware_id RIOT_DIGEST_LENGTH).2 RIOT_DIGEST_LENGTH
        demoProvider.RIOT_LABEL_ALIAS (lblSize demoProvider.RIOT_LABEL_ALIAS)).2 := by
  refine ⟨?_, ?_, ?_⟩ <;> decide

/-- C15: in every successful `dps_hsm_riot_create` the composite identifier
is hashed first: the DeviceIdentity key pair of the handle is the one derived
from `digest = hash(CDI)` with the identity label, and the AliasIdentity key
pair the one derived with the alias label from
`seed = hash2(digest, firmware_id)`, which is also what `g_digest` holds
afterwards; all four primitives reported success. -/
theorem key_pairs_derived_from_hashed_cdi (P : Provider) (g : Globals)
    (h : DPS_SECURE_DEVICE_INFO) (hc : (dps_hsm_riot_create P g).1 = some h) :
    ∃ digest seed,
      P.RiotCrypt_Hash RIOT_DIGEST_LENGTH g.g_CDI DICE_DIGEST_LENGTH = (RIOT_SUCCESS, digest) ∧
      P.RiotCrypt_DeriveEccKey digest DICE_DIGEST_LENGTH P.RIOT_LABEL_IDENTITY
        (lblSize P.RIOT_LABEL_IDENTITY) = (RIOT_SUCCESS, h.device_id_pub, h.device_id_priv) ∧
      P.RiotCrypt_Hash2 DICE_DIGEST_LENGTH digest DICE_DIGEST_LENGTH firmware_id
        RIOT_DIGEST_LENGTH = (RIOT_SUCCESS, seed) ∧
      P.RiotCrypt_DeriveEccKey seed RIOT_DIGEST_LENGTH P.RIOT_LABEL_ALIAS
        (lblSize P.RIOT_LABEL_ALIAS) = (RIOT_SUCCESS, h.alias_key_pub, h.alias_key_priv) ∧
      (dps_hsm_riot_create P g).2.g_digest = seed ∧
      (dps_hsm_riot_create P g).2.g_CDI = g.g_CDI := by
  obtain ⟨c, hh, rfl, -, -, -, hdig⟩ := dps_hsm_riot_create_ok P g h hc
  obtain ⟨q1, q2, q3, q4, -⟩ := hh
  exact ⟨c.digest, c.alias_seed, q1, q2, q3, q4, hdig, (dps_hsm_riot_create_keeps P g).1⟩

theorem key_pairs_derived_from_hashed_cdi_witness :
    (dps_hsm_riot_create demoProvider demoGlobals).1 = some demoHandle ∧
    ∃ digest seed,
      demoProvider.RiotCrypt_Hash RIOT_DIGEST_LENGTH demoGlobals.g_CDI DICE_DIGEST_LENGTH
        = (RIOT_SUCCESS, digest) ∧
      demoProvider.RiotCrypt_DeriveEccKey digest DICE_DIGEST_LENGTH
        demoProvider.RIOT_LABEL_IDENTITY (lblSize demoProvider.RIOT_LABEL_IDENTITY)
        = (RIOT_SUCCESS, demoHandle.device_id_pub, demoHandle.device_id_priv) ∧
      demoProvider.RiotCrypt_Hash2 DICE_DIGEST_LENGTH digest DICE_DIGEST_LENGTH firmware_id
        RIOT_DIGEST_LENGTH = (RIOT_SUCCESS, seed) ∧
      demoProvider.RiotCrypt_DeriveEccKey seed RIOT_DIGEST_LENGTH demoProvider.RIOT_LABEL_ALIAS
        (lblSize demoProvider.RIOT_LABEL_ALIAS)
        = (RIOT_SUCCESS, demoHandle.alias_key_pub, demoHandle.alias_key_priv) ∧
      (dps_hsm_riot_create demoProvider demoGlobals).2.g_digest = seed ∧
      (dps_hsm_riot_create demoProvider demoGlobals).2.g_CDI = demoGlobals.g_CDI :=
  ⟨by decide, key_pairs_derived_from_hashed_cdi demoProvider demoGlobals demoHandle (by decide)⟩

/-! ## The recorded lengths -/

/-- The shared body of the buffer accessors for a length inside the buffer,
whatever the allocator does. -/
theorem copy_out_total (A : Provider) (pem : Bytes) (L : Nat) (hw : WithinBuffer pem L)
    (x : Ptr DPS_SECURE_DEVICE_INFO) :
    (match malloc A ((L + 1) % 2 ^ 32) with
      | none => some (none, x)
      | some result => do
        let result ← memset result 0 ((L + 1) % 2 ^ 32)
        let result ← memcpy result pem L
        pure (some result, x)) =
      if A.malloc_succeeds (L + 1) = true then some (some (pem.take L ++ [0]), x)
      else some (none, x) := by
  by_cases ha : A.malloc_succeeds (L + 1) = true
  · rw [if_pos ha]
    exact copy_out_eq A pem L hw ha x
  · rw [if_neg ha, Nat.mod_eq_of_lt hw.2]
    simp [malloc, ha]

/-- C16: assume the text encoder, when it succeeds, writes back a length no
greater than the capacity it was given.  Then every handle returned by
`dps_hsm_riot_create` has its six recorded lengths at most `DER_MAX_PEM`, and
the six encoder calls of the construction were each handed a text buffer of
the handle, zeroed, with capacity exactly `DER_MAX_PEM`.  The text buffers
being arrays of `DER_MAX_PEM` bytes that the encoder cannot resize, each
recorded length is at most the size of its buffer, and (with `DER_MAX_PEM + 1`
inside the 32-bit range of the length arithmetic) every accessor is defined:
its copy stays inside the buffer, and it returns the terminated text or
`NULL` as the allocation decides. -/
theorem recorded_lengths_within_capacity (P : Provider) (g : Globals)
    (h : DPS_SECURE_DEVICE_INFO) (hc : (dps_hsm_riot_create P g).1 = some h)
    (hcap : EncoderRespectsCapacity P) :
    (h.device_id_length ≤ P.DER_MAX_PEM ∧ h.device_signed_length ≤ P.DER_MAX_PEM ∧
      h.alias_key_length ≤ P.DER_MAX_PEM ∧ h.alias_cert_length ≤ P.DER_MAX_PEM ∧
      h.root_ca_length ≤ P.DER_MAX_PEM ∧ h.root_ca_priv_length ≤ P.DER_MAX_PEM) ∧
    (newCalls g (dps_hsm_riot_create P g).2).filterMap (fun i => i.call.encoderRequest)
      = List.replicate 6 (zeroed P.DER_MAX_PEM, P.DER_MAX_PEM) ∧
    (EncoderKeepsBuffer P →
      (h.device_id_public_pem.length = P.DER_MAX_PEM ∧
        h.device_signed_pem.length = P.DER_MAX_PEM ∧
        h.alias_priv_key_pem.length = P.DER_MAX_PEM ∧
        h.alias_cert_pem.length = P.DER_MAX_PEM ∧
        h.root_ca_pem.length = P.DER_MAX_PEM ∧
        h.root_ca_priv_pem.length = P.DER_MAX_PEM) ∧
      (h.device_id_length ≤ h.device_id_public_pem.length ∧
        h.device_signed_length ≤ h.device_signed_pem.length ∧
        h.alias_key_length ≤ h.alias_priv_key_pem.length ∧
        h.alias_cert_length ≤ h.alias_cert_pem.length ∧
        h.root_ca_length ≤ h.root_ca_pem.length ∧
        h.root_ca_priv_length ≤ h.root_ca_priv_pem.length) ∧
      (P.DER_MAX_PEM + 1 < 2 ^ 32 → ∀ A : Provider,
        dps_hsm_riot_get_certificate A (some h) =
          (if A.malloc_succeeds (h.alias_cert_length + 1) = true then
            some (some (h.alias_cert_pem.take h.alias_cert_length ++ [0]), some h)
          else some (none, some h)) ∧
        dps_hsm_riot_get_alias_key A (some h) =
          (if A.malloc_succeeds (h.alias_key_length + 1) = true then
            some (some (h.alias_priv_key_pem.take h.alias_key_length ++ [0]), some h)
          else some (none, some h)) ∧
        dps_hsm_riot_get_device_cert A (some h) =
          (if A.malloc_succeeds (h.device_id_length + 1) = true then
            some (some (h.device_id_public_pem.take h.device_id_length ++ [0]), some h)
          else some (none, some h)) ∧
        dps_hsm_riot_get_signer_cert A (some h) =
          (if A.malloc_succeeds (h.device_signed_length + 1) = true then
            some (some (h.device_signed_pem.take h.device_signed_length ++ [0]), some h)
          else some (none, some h)) ∧
        dps_hsm_riot_get_root_cert A (some h) =
          (if A.malloc_succeeds (h.root_ca_length + 1) = true then
            some (some (h.root_ca_pem.take h.root_ca_length ++ [0]), some h)
          else some (none, some h)) ∧
        dps_hsm_riot_get_root_key A (some h) =
          (if A.malloc_succeeds (h.root_ca_priv_length + 1) = true then
            some (some (h.root_ca_priv_pem.take h.root_ca_priv_length ++ [0]), some h)
          else some (none, some h)))) := by
  obtain ⟨c, hh, rfl, -, -, hcalls, -⟩ := dps_hsm_riot_create_ok P g h hc
  obtain ⟨-, -, -, -, -, p6, -, p8, -, -, -, p12, -, -, -, p16, -, -, -, p20, -, p22, -⟩ := hh
  have b6 := hcap c.device_id_der P.PUBLICKEY_TYPE
    (DPS_SECURE_DEVICE_INFO.zero P).device_id_public_pem P.DER_MAX_PEM
  have b8 := hcap c.alias_key_der P.ECC_PRIVATEKEY_TYPE
    (DPS_SECURE_DEVICE_INFO.zero P).alias_priv_key_pem P.DER_MAX_PEM
  have b12 := hcap c.alias_cert P.CERT_TYPE
    (DPS_SECURE_DEVICE_INFO.zero P).alias_cert_pem P.DER_MAX_PEM
  have b16 := hcap c.device_cert P.CERT_TYPE
    (DPS_SECURE_DEVICE_INFO.zero P).device_signed_pem P.DER_MAX_PEM
  have b20 := hcap c.root_cert P.CERT_TYPE
    (DPS_SECURE_DEVICE_INFO.zero P).root_ca_pem P.DER_MAX_PEM
  have b22 := hcap c.root_key_der P.ECC_PRIVATEKEY_TYPE
    (DPS_SECURE_DEVICE_INFO.zero P).root_ca_priv_pem P.DER_MAX_PEM
  rw [p6] at b6
  rw [p8] at b8
  rw [p12] at b12
  rw [p16] at b16
  rw [p20] at b20
  rw [p22] at b22
  replace b6 : c.device_id_length ≤ P.DER_MAX_PEM := b6 rfl
  replace b8 : c.alias_key_length ≤ P.DER_MAX_PEM := b8 rfl
  replace b12 : c.alias_cert_length ≤ P.DER_MAX_PEM := b12 rfl
  replace b16 : c.device_signed_length ≤ P.DER_MAX_PEM := b16 rfl
  replace b20 : c.root_ca_length ≤ P.DER_MAX_PEM := b20 rfl
  replace b22 : c.root_ca_priv_length ≤ P.DER_MAX_PEM := b22 rfl
  refine ⟨⟨b6, b16, b8, b12, b20, b22⟩, ?_, ?_⟩
  · rw [newCalls_of_append g _ _ hcalls]
    rfl
  · intro hkeep
    have k6 := hkeep c.device_id_der P.PUBLICKEY_TYPE
      (DPS_SECURE_DEVICE_INFO.zero P).device_id_public_pem P.DER_MAX_PEM
    have k8 := hkeep c.alias_key_der P.ECC_PRIVATEKEY_TYPE
      (DPS_SECURE_DEVICE_INFO.zero P).alias_priv_key_pem P.DER_MAX_PEM
    have k12 := hkeep c.alias_cert P.CERT_TYPE
      (DPS_SECURE_DEVICE_INFO.zero P).alias_cert_pem P.DER_MAX_PEM
    have k16 := hkeep c.device_cert P.CERT_TYPE
      (DPS_SECURE_DEVICE_INFO.zero P).device_signed_pem P.DER_MAX_PEM
    have k20 := hkeep c.root_cert P.CERT_TYPE
      (DPS_SECURE_DEVICE_INFO.zero P).root_ca_pem P.DER_MAX_PEM
    have k22 := hkeep c.root_key_der P.ECC_PRIVATEKEY_TYPE
      (DPS_SECURE_DEVICE_INFO.zero P).root_ca_priv_pem P.DER_MAX_PEM
    rw [p6] at k6
    rw [p8] at k8
    rw [p12] at k12
    rw [p16] at k16
    rw [p20] at k20
    rw [p22] at k22
    replace k6 : c.device_id_public_pem.length = P.DER_MAX_PEM :=
      k6.trans (List.length_replicate _ _)
    replace k8 : c.alias_priv_key_pem.length = P.DER_MAX_PEM :=
      k8.trans (List.length_replicate _ _)
    replace k12 : c.alias_cert_pem.length = P.DER_MAX_PEM :=
      k12.trans (List.length_replicate _ _)
    replace k16 : c.device_signed_pem.length = P.DER_MAX_PEM :=
      k16.trans (List.length_replicate _ _)
    replace k20 : c.root_ca_pem.length = P.DER_MAX_PEM :=
      k20.trans (List.length_replicate _ _)
    replace k22 : c.root_ca_priv_pem.length = P.DER_MAX_PEM :=
      k22.trans (List.length_replicate _ _)
    refine ⟨⟨k6, k16, k8, k12, k20, k22⟩, ⟨k6 ▸ b6, k16 ▸ b16, k8 ▸ b8, k12 ▸ b12, k20 ▸ b20,
      k22 ▸ b22⟩, ?_⟩
    intro hsz A
    refine ⟨?_, ?_, ?_, ?_, ?_, ?_⟩
    · exact copy_out_total A c.alias_cert_pem c.alias_cert_length
        ⟨k12 ▸ b12, by omega⟩ _
    · exact copy_out_total A c.alias_priv_key_pem c.alias_key_length
        ⟨k8 ▸ b8, by omega⟩ _
    · exact copy_out_total A c.device_id_public_pem c.device_id_length
        ⟨k6 ▸ b6, by omega⟩ _
    · exact copy_out_total A c.device_signed_pem c.device_signed_length
        ⟨k16 ▸ b16, by omega⟩ _
    · exact copy_out_total A c.root_ca_pem c.root_ca_length
        ⟨k20 ▸ b20, by omega⟩ _
    · exact copy_out_total A c.root_ca_priv_pem c.root_ca_priv_length
        ⟨k22 ▸ b22, by omega⟩ _

theorem recorded_lengths_within_capacity_witness :
    ((dps_hsm_riot_create demoProvider demoGlobals).1 = some demoHandle ∧
      EncoderRespectsCapacity demoProvider ∧ EncoderKeepsBuffer demoProvider ∧
      demoProvider.DER_MAX_PEM + 1 < 2 ^ 32) ∧
    demoHandle.alias_cert_length ≤ demoProvider.DER_MAX_PEM ∧
    demoHandle.alias_cert_length ≤ demoHandle.alias_cert_pem.length ∧
    dps_hsm_riot_get_certificate demoProvider (some demoHandle) =
      (if demoProvider.malloc_succeeds (demoHandle.alias_cert_length + 1) = true then
        some (some (demoHandle.alias_cert_pem.take demoHandle.alias_cert_length ++ [0]),
          some demoHandle)
      else some (none, some demoHandle)) :=
  ⟨⟨by decide, demoProvider_respects_capacity, demoProvider_keeps_buffer, by decide⟩,
    (recorded_lengths_within_capacity demoProvider demoGlobals demoHandle (by decide)
      demoProvider_respects_capacity).1.2.2.2.1,
    ((recorded_lengths_within_capacity demoProvider demoGlobals demoHandle (by decide)
      demoProvider_respects_capacity).2.2 demoProvider_keeps_buffer).2.1.2.2.2.1,
    (((recorded_lengths_within_capacity demoProvider demoGlobals demoHandle (by decide)
      demoProvider_respects_capacity).2.2 demoProvider_keeps_buffer).2.2 (by decide)
        demoProvider).1⟩

end DpsHsmRiot
